import Mathlib

/-!
Verification of the PROTEUS DSWx-HLS scaling scripts.

This file gives a shallow embedding, in Lean 4, of the query-filtering
pipeline of the repository (`src/proteus/scaling/study_area_granules.py`,
`src/proteus/scaling/utility.py`, `src/proteus/scaling/args_setup.py`,
`bin/dswx_scaling_script.py`) and proves or refutes the specification
claims about it.

Conventions used throughout:
  * Python `dict`s (keyed by granule id) become association lists
    `List (String × α)`; insertion follows Python semantics (replace in
    place when the key exists, append otherwise), so key lists of
    dictionaries built this way are duplicate-free.
  * String operations are modelled on `List Char` (`String.toList`) to
    keep every definition kernel-computable.
  * Network effects (the STAC query, the per-granule metadata fetch, the
    asset download) are oracles passed in as functions.
  * `sys.exit` / `raise` become `Except`-style outcomes.
-/

namespace Proteus

/-! ## String helpers (models of the Python string primitives used) -/

/-- Split a list of characters at every occurrence of the separator
character; models Python `str.split(sep)` for a one-character separator
(as used with `'.'`, `'-'` and `','` in the source). -/
def splitCharGo (sep : Char) : List Char → List Char → List (List Char)
  | [], cur => [cur.reverse]
  | c :: cs, cur =>
      if c = sep then cur.reverse :: splitCharGo sep cs []
      else splitCharGo sep cs (c :: cur)

/-- Split a string on a one-character separator; models `str.split(sep)`. -/
def splitOnChar (sep : Char) (s : String) : List String :=
  (splitCharGo sep s.toList []).map List.asString

/-- Substring containment test; models Python `pat in s`. -/
def strContains (s pat : String) : Bool :=
  decide (pat.toList <:+: s.toList)

/-- Fold a digit list into a number; models Python `int(...)` on a string
of decimal digits (non-digit input, which raises `ValueError` in Python,
is outside the modelled domain). -/
def digitsToNat (l : List Char) : Nat :=
  l.foldl (fun acc c => acc * 10 + (c.toNat - 48)) 0

/-- `int(...)` on a string of decimal digits. -/
def strToNat (s : String) : Nat := digitsToNat s.toList

/-- Zero-padded two-digit rendering of a number below 100; models the
`%m`/`%d` fields of `datetime.strftime`. -/
def pad2 (n : Nat) : String :=
  if n < 10 then "0" ++ toString n else toString n

/-! ## Granule identity codec (`utility.get_sensor_tileID_date`)

The date component conversion models
`datetime.strftime(datetime.strptime(date, '%Y%j'), '%Y%m%d')`:
an ordinal `YYYYDDD` date becomes a calendar `YYYYMMDD` date. -/

/-- Gregorian leap-year test, as used by `datetime`. -/
def isLeapYear (y : Nat) : Bool :=
  (y % 4 == 0 && y % 100 != 0) || y % 400 == 0

/-- Number of days in a month (1–12) of a leap/non-leap year. -/
def daysInMonth (leap : Bool) (m : Nat) : Nat :=
  if m = 2 then (if leap then 29 else 28)
  else if m = 4 ∨ m = 6 ∨ m = 9 ∨ m = 11 then 30
  else 31

/-- Walk the months of the year, converting an ordinal day-of-year into a
(month, day) pair. -/
def ordinalToMonthDay (leap : Bool) : List Nat → Nat → Nat × Nat
  | [], d => (12, d)
  | m :: ms, d =>
      if d ≤ daysInMonth leap m then (m, d)
      else ordinalToMonthDay leap ms (d - daysInMonth leap m)

/-- Convert `"YYYYDDD"` (ordinal date) to `"YYYYMMDD"` (calendar date);
models `strptime(date, '%Y%j')` followed by `strftime('%Y%m%d')`. -/
def yyyydddToYyyymmdd (s : String) : String :=
  let y := digitsToNat (s.toList.take 4)
  let ddd := digitsToNat (s.toList.drop 4)
  let md := ordinalToMonthDay (isLeapYear y) [1, 2, 3, 4, 5, 6, 7, 8, 9, 10, 11] ddd
  toString y ++ pad2 md.1 ++ pad2 md.2

/-- `utility.get_sensor_tileID_date`: split the granule id on `'.'`, take
field 1 as the sensor, field 2 as the tile id (the source does NOT strip
the leading `'T'` here), and the first 7 characters of field 3 as the
ordinal date, converted to `YYYYMMDD`.  Out-of-range indexing (an
`IndexError` in Python) is modelled as the empty string. -/
def get_sensor_tileID_date (granule_name : String) : String × String × String :=
  let id_split := splitOnChar '.' granule_name
  let sensor := id_split.getD 1 ""
  let tileID := id_split.getD 2 ""
  let date := (id_split.getD 3 "").toList.take 7
  (sensor, tileID, yyyydddToYyyymmdd date.asString)

/-! ## Data model

A `Item` is one Candidate Record as the pipeline sees it: the pystac
item's `id`, its `properties['datetime']` string, and its asset map
(band name → href). -/

structure Item where
  id : String
  datetime : String
  assets : List (String × String)
deriving DecidableEq

/-- Look up a key in an association list (Python `d[k]` / `k in d`). -/
def lookupA {α : Type} (k : String) : List (String × α) → Option α
  | [] => none
  | (k', v) :: t => if k' = k then some v else lookupA k t

/-- Python dict insertion: replace in place when the key exists, append
otherwise (`d[k] = v`). -/
def dictInsert {α : Type} (k : String) (v : α) : List (String × α) → List (String × α)
  | [] => [(k, v)]
  | (k', v') :: t => if k' = k then (k, v) :: t else (k', v') :: dictInsert k v t

/-- Python dict deletion `del d[k]` (for duplicate-free key lists,
filtering is the same as removing the single entry). -/
def dictErase {α : Type} (k : String) (d : List (String × α)) : List (String × α) :=
  d.filter (fun p => p.1 ≠ k)

/-- The keys of a dict, in iteration order (`list(d.keys())`). -/
def dictKeys {α : Type} (d : List (String × α)) : List String := d.map Prod.fst

/-- Well-formedness of a dict model: its keys are duplicate-free. -/
def NodupKeys {α : Type} (d : List (String × α)) : Prop := (dictKeys d).Nodup

/-- The Filter Parameters of a `StudyAreaQuery`, after
`args_setup.reformat_args` (months as numbers, band lists split). -/
structure Params where
  collections : List String
  bounding_box : String
  intersects : String
  granule_ids : String
  date_range : String
  tile_id : String
  months : List Nat
  spatial_coverage_min : Int
  cloud_cover_max : Int
  same_day : Bool
  verbose : Bool
  l30_v2_bands : List String
  s30_v2_bands : List String
deriving DecidableEq

/-! ## Stage 1: initial population
(`StudyAreaQuery.filter_item_collection_and_populate_dict`) -/

/-- Month of the item's `properties['datetime']` string
(`'%Y-%m-%dT%H:%M:%S.%fZ'`, e.g. `2021-01-09T19:03:23.352Z`): the field
between the first and second `'-'`, as parsed by `datetime.strptime`. -/
def monthOf (datetime : String) : Nat :=
  strToNat ((splitOnChar '-' datetime).getD 1 "")

/-- One iteration of the population loop: skip the item if a target tile
id was requested and is not a substring of the item id; skip it if fewer
than 12 months were requested and the acquisition month is not among
them; otherwise insert it into the dict. -/
def populateStep (p : Params) (ws : List (String × Item)) (i : Item) : List (String × Item) :=
  if p.tile_id ≠ "" ∧ ¬ (strContains i.id p.tile_id = true) then ws
  else if p.months.length < 12 ∧ monthOf i.datetime ∉ p.months then ws
  else dictInsert i.id i ws

/-- `filter_item_collection_and_populate_dict`: seed the working set from
the item collection, applying the tile-id and month filters. -/
def filter_item_collection_and_populate_dict (p : Params) (items : List Item) :
    List (String × Item) :=
  items.foldl (populateStep p) []

/-! ## Same-day pairing
(`StudyAreaQuery.filter_dict_for_S30_L30_sameDay`; the older
`hls_scaling/scaling/study_area_granules.py > filter_S30_L30_sameDay`
has the identical body) -/

/-- The `date_tileID` grouping key of a granule id: the first 7
characters of the 4th dot-field (`YYYYDDD`) followed by the 3rd dot-field
with its first character (the `'T'`) removed. -/
def date_tileID (granule_id : String) : String :=
  let id_split := splitOnChar '.' granule_id
  let tileID := ((id_split.getD 2 "").toList.drop 1).asString
  let date := ((id_split.getD 3 "").toList.take 7).asString
  date ++ tileID

/-- The sensor field of a granule id (`id_split[1]`, `'L30'`/`'S30'`). -/
def sensorOf (gid : String) : String :=
  (splitOnChar '.' gid).getD 1 ""

/-- Number of granule ids in `gs` whose `date_tileID` key is `k`. -/
def countKey (k : String) (gs : List String) : Nat :=
  gs.countP (fun g => decide (date_tileID g = k))

/-- The scan of the pairing algorithm: walk the granule ids; the first
occurrence of a `date_tileID` key is inserted into `unmatched_granules`,
a second occurrence deletes the key (both members are matched). -/
def sameDayScan : List String → List (String × String) → List (String × String)
  | [], unmatched => unmatched
  | gid :: rest, unmatched =>
      let k := date_tileID gid
      if k ∈ unmatched.map Prod.fst then
        sameDayScan rest (dictErase k unmatched)
      else
        sameDayScan rest (unmatched ++ [(k, gid)])

/-- `filter_dict_for_S30_L30_sameDay`: run the scan over the working
set's keys, then delete every granule id still held as a value of
`unmatched_granules`. -/
def filter_dict_for_S30_L30_sameDay (ws : List (String × Item)) : List (String × Item) :=
  let unmatched := sameDayScan (dictKeys ws) []
  ws.filter (fun q => q.1 ∉ unmatched.map Prod.snd)

/-! ## Stage 3: metadata-dependent filters (`StudyAreaQuery.filter_query_dict`)

The per-granule metadata XML document is modelled as the list of its
`AdditionalAttribute` elements, each carrying the `Name` text and the
first `Value` text (parsed by `int(...)` where the source does so). -/

/-- Prefix test on strings; models Python `str.startswith`. -/
def strStarts (s pre : String) : Bool :=
  decide (pre.toList <+: s.toList)

/-- One `AdditionalAttribute` of a granule's metadata document. -/
inductive MetaAttr
  | landsatProductID (prod_id : String)
  | cloudCoverage (pct : Int)
  | spatialCoverage (pct : Int)
  | otherAttr (name : String)
deriving DecidableEq

/-- Which of the three metadata predicates acted (used both as a deletion
reason and as an evaluation-trace entry). -/
inductive FilterTag
  | landsat9
  | cloud
  | spatial
deriving DecidableEq

/-- The attribute loop of `filter_query_dict` for a single granule
(source lines 180–204 together with the three `*_req_ok` helpers).

The source dispatches on the attribute's `Name` text — the first branch
is written `elif` (a slip: Python requires `if` to open a chain) and the
third is a separate `if`, but since an attribute's `Name` can equal at
most one of the three strings the chain is a plain dispatch, modelled
here per constructor.  Each branch only fires when its filter is active
(`".L30." in item_name` / `cloud_cover_max < 100` /
`spatial_coverage_min > 0`).  A failing predicate deletes the granule
and `break`s out of the attribute loop; an unexpected Landsat product id
raises.  The result is either the raised message, or the deletion reason
(if any) paired with the trace of predicate evaluations performed, in
order. -/
def processAttrs (p : Params) (item_name : String) :
    List MetaAttr → Except String (Option FilterTag × List FilterTag)
  | [] => .ok (none, [])
  | a :: rest =>
      match a with
      | .landsatProductID prod_id =>
          if strContains item_name ".L30." then
            -- no_landsat9_req_ok
            if strStarts prod_id "LC08" then
              (processAttrs p item_name rest).map
                (fun q => (q.1, FilterTag.landsat9 :: q.2))
            else if strStarts prod_id "LC09" then
              .ok (some .landsat9, [.landsat9])
            else
              .error "A granule that was not Landsat 8 nor Landsat 9 was found."
          else
            processAttrs p item_name rest
      | .cloudCoverage pct =>
          if p.cloud_cover_max < 100 then
            -- cloud_coverage_req_ok
            if pct > p.cloud_cover_max then
              .ok (some .cloud, [.cloud])
            else
              (processAttrs p item_name rest).map
                (fun q => (q.1, FilterTag.cloud :: q.2))
          else
            processAttrs p item_name rest
      | .spatialCoverage pct =>
          if p.spatial_coverage_min > 0 then
            -- spatial_coverage_req_ok
            if pct < p.spatial_coverage_min then
              .ok (some .spatial, [.spatial])
            else
              (processAttrs p item_name rest).map
                (fun q => (q.1, FilterTag.spatial :: q.2))
          else
            processAttrs p item_name rest
      | .otherAttr _ => processAttrs p item_name rest

/-- The evaluation trace of a per-granule scan (empty on a raised
exception). -/
def evalTraceOf (r : Except String (Option FilterTag × List FilterTag)) : List FilterTag :=
  match r with
  | .ok (_, evs) => evs
  | .error _ => []

/-- Whether the per-granule scan deleted the granule. -/
def deletedBy (r : Except String (Option FilterTag × List FilterTag)) : Option FilterTag :=
  match r with
  | .ok (d, _) => d
  | .error _ => none

/-- The granule's metadata URL
(`granules_to_download[item_name].assets['metadata'].href`; a missing
`'metadata'` asset would be a Python `KeyError` and is outside the
modelled domain). -/
def metadataHref (it : Item) : String :=
  (lookupA "metadata" it.assets).getD ""

/-- The outer loop of `filter_query_dict` over a snapshot of the keys
(`for item_name in list(self.granules_to_download.keys())`), with the
metadata fetch modelled as an oracle from URL to attribute list.  Each
deleted granule id is also recorded in a deletion trace.  A key missing
from the dict at lookup time (a Python `KeyError`, unreachable from
`filter_query_dict_metadata`) is modelled as an error. -/
def filterQueryDictGo (p : Params) (fetch : String → List MetaAttr) :
    List String → List (String × Item) → List String →
    Except String (List (String × Item) × List String)
  | [], ws, dels => .ok (ws, dels.reverse)
  | gid :: rest, ws, dels =>
      match lookupA gid ws with
      | none => .error ("KeyError: " ++ gid)
      | some it =>
          match processAttrs p gid (fetch (metadataHref it)) with
          | .error e => .error e
          | .ok (some _, _) => filterQueryDictGo p fetch rest (dictErase gid ws) (gid :: dels)
          | .ok (none, _) => filterQueryDictGo p fetch rest ws dels

/-- The metadata-dependent filter stage: scan every granule of the
working set against its fetched metadata document. -/
def filter_query_dict_metadata (p : Params) (fetch : String → List MetaAttr)
    (ws : List (String × Item)) : Except String (List (String × Item) × List String) :=
  filterQueryDictGo p fetch (dictKeys ws) ws []

/-! ## The filter pipeline (`query_STAC_and_filter_results` after the
STAC query, plus the persist/download steps of `bin/dswx_scaling_script.py > main`) -/

/-- The stages of a job, in the order the source can enter them. -/
inductive Stage
  | populate
  | sameDayPre
  | metadataFilter
  | sameDayPost
  | persistResults
  | downloadStage
deriving DecidableEq

/-- How a run ends: normal completion with the final working set, the
`sys.exit()` of `exit_if_no_downloads`, or a raised exception. -/
inductive Outcome
  | completed (ws : List (String × Item))
  | abortedEmpty
  | fatalError (msg : String)
deriving DecidableEq

/-- The Working Set after stage 2 (the same-day pre-filter, when the
flag is set; otherwise the populated set unchanged). -/
def wsAfterPre (p : Params) (items : List Item) : List (String × Item) :=
  if p.same_day then
    filter_dict_for_S30_L30_sameDay (filter_item_collection_and_populate_dict p items)
  else filter_item_collection_and_populate_dict p items

/-- The Working Set after stage 3 (the metadata-dependent filters), or
the raised exception message. -/
def wsAfterMetadata (p : Params) (items : List Item) (fetch : String → List MetaAttr) :
    Except String (List (String × Item)) :=
  match filter_query_dict_metadata p fetch (wsAfterPre p items) with
  | .ok (ws3, _) => .ok ws3
  | .error e => .error e

/-- The Working Set after stage 4 (the same-day post-filter, when the
flag is set). -/
def wsAfterPost (p : Params) (items : List Item) (fetch : String → List MetaAttr) :
    Except String (List (String × Item)) :=
  match wsAfterMetadata p items fetch with
  | .ok ws3 => .ok (if p.same_day then filter_dict_for_S30_L30_sameDay ws3 else ws3)
  | .error e => .error e

/-- The filter pipeline
(`filter_item_collection_and_populate_dict` followed by
`filter_query_dict`), returning the list of stages entered together with
the outcome.  `exit_if_no_downloads` is called after population, after
the same-day pre-filter, inside the metadata loop after every granule,
and after the same-day post-filter.  The in-loop call is modelled as the
post-loop emptiness check: every iteration deletes at most its own key
and the loop runs over a snapshot of the keys of a dict that is
non-empty at loop entry, so the dict becomes empty during the loop
exactly when it is empty at the loop's end. -/
def runFilterPipeline (p : Params) (items : List Item)
    (fetch : String → List MetaAttr) : List Stage × Outcome :=
  let ws1 := filter_item_collection_and_populate_dict p items
  if ws1.isEmpty then ([.populate], .abortedEmpty) else
  let preTrace := if p.same_day then [Stage.populate, Stage.sameDayPre] else [Stage.populate]
  let ws2 := wsAfterPre p items
  if ws2.isEmpty then (preTrace, .abortedEmpty) else
  match wsAfterMetadata p items fetch with
  | .error e => (preTrace ++ [Stage.metadataFilter], .fatalError e)
  | .ok ws3 =>
      if ws3.isEmpty then (preTrace ++ [Stage.metadataFilter], .abortedEmpty) else
      if p.same_day then
        let ws4 := filter_dict_for_S30_L30_sameDay ws3
        if ws4.isEmpty then
          (preTrace ++ [Stage.metadataFilter, Stage.sameDayPost], .abortedEmpty)
        else (preTrace ++ [Stage.metadataFilter, Stage.sameDayPost], .completed ws4)
      else (preTrace ++ [Stage.metadataFilter], .completed ws3)

/-- A whole (non-rerun) job as `main` drives it: the filter pipeline,
then — only if the pipeline returned — persistence of the query results,
then (unless `--do-not-download`) the download/process fan-out.  An
abort inside the pipeline (`sys.exit` or a raised exception) unwinds out
of `main`, so neither later stage is entered. -/
def runJob (p : Params) (items : List Item) (fetch : String → List MetaAttr)
    (do_not_download : Bool) : List Stage × Outcome :=
  match runFilterPipeline p items fetch with
  | (tr, .completed ws) =>
      if do_not_download then (tr ++ [.persistResults], .completed ws)
      else (tr ++ [.persistResults, .downloadStage], .completed ws)
  | r => r

/-! ## Per-granule downloader (`utility.download2file`) -/

/-- A `requests` response, reduced to its HTTP status code.  Python
truthiness of a `Response` is `status_code < 400`. -/
structure Resp where
  status_code : Nat
deriving DecidableEq

/-- Observable behaviour of one `download2file` call: the returned
Boolean, how many `requests.get` attempts were made, and the total
seconds passed to `time.sleep`. -/
structure DownloadTrace where
  result : Bool
  attempts : Nat
  sleep_secs : Nat
deriving DecidableEq

/-- `utility.download2file`, with the network modelled as an oracle from
attempt number to either a raised exception (`.error`) or a response.

In the source, the body of `for attempt in range(1,4)` either `break`s
(when `requests.get` returns) or runs the `except` block, whose final
statement `return False` sits OUTSIDE the `if attempt < 3:`/`else:`
split; so the first raising attempt prints, sleeps 5 seconds (because
`1 < 3`), and returns `False` — no second loop iteration is reachable,
which this definition mirrors.  On a response, `if data:` writes the
file and returns `True`, otherwise (status ≥ 400) returns `False`. -/
def download2file (net : Nat → Except String Resp) : DownloadTrace :=
  match net 1 with
  | .ok data => { result := data.status_code < 400, attempts := 1, sleep_secs := 0 }
  | .error _ => { result := false, attempts := 1, sleep_secs := 5 }

/-! ## Raw command-line arguments (`args_setup.py`)

`parse_args` collects the argparse destinations into a dict; this
structure carries one field per destination, with the argparse types
(strings for everything the user types, `int` for the two percentage
bounds and `ncpu`, `store_true` Booleans for the flags). -/

structure Args where
  scaling_runconfig : String
  root_dir : String
  job_name : String
  ncpu : Int
  bounding_box : String
  intersects : String
  granule_ids : String
  date_range : String
  months : String
  tile_id : String
  cloud_cover_max : Int
  spatial_coverage_min : Int
  same_day : Bool
  do_not_download : Bool
  do_not_process : Bool
  rerun : Bool
  runconfig_yaml : String
  dem_file : String
  landcover_file : String
  worldcover_file : String
  l30_v2_bands : String
  s30_v2_bands : String
  stac_url_lpcloud : String
  collections : String
  verbose : Bool
deriving DecidableEq

/-- The rerun merge of `args_setup.parse_args` (source lines 354–385):
when the `rerun` flag is set after command-line/runconfig parsing, the
five session values `root_dir`, `job_name`, `do_not_download`,
`do_not_process` and `verbose` are stashed, the persisted
`settings.json` contents replace the whole argument set, `rerun` is
forced back to `True`, and the five stashed values overwrite their
fields.  `session` is the argument set before the rerun block,
`persisted` the contents of `settings.json`. -/
def parse_args_rerun_merge (session persisted : Args) : Args :=
  if session.rerun then
    { persisted with
        rerun := true
        root_dir := session.root_dir
        job_name := session.job_name
        do_not_download := session.do_not_download
        do_not_process := session.do_not_process
        verbose := session.verbose }
  else session

/-! ## Input validation (`args_setup.verify_input_args`) -/

/-- The parts of the process environment `verify_input_args` consults. -/
structure Env where
  isdir : String → Bool
  pathExists : String → Bool
  cpu_count : Int

/-- `re.compile(r'^HLS\.[LS]30\.T\d{2}[A-Z]{3}\.20\d{5}T\d{6}\.v2\.0$')`
matched against a whole granule id. -/
def matchHLSGranuleId (s : String) : Bool :=
  match s.toList with
  | 'H' :: 'L' :: 'S' :: '.' :: c0 :: '3' :: '0' :: '.' :: 'T' :: d1 :: d2 ::
    u1 :: u2 :: u3 :: '.' :: '2' :: '0' :: e1 :: e2 :: e3 :: e4 :: e5 :: 'T' ::
    f1 :: f2 :: f3 :: f4 :: f5 :: f6 :: '.' :: 'v' :: '2' :: '.' :: '0' :: [] =>
      (c0 == 'L' || c0 == 'S') && d1.isDigit && d2.isDigit &&
      u1.isUpper && u2.isUpper && u3.isUpper &&
      e1.isDigit && e2.isDigit && e3.isDigit && e4.isDigit && e5.isDigit &&
      f1.isDigit && f2.isDigit && f3.isDigit && f4.isDigit && f5.isDigit && f6.isDigit
  | _ => false

/-- `re.compile(r'\d{2}[A-Z]{3}').match(s)`: `re.match` anchors only at
the start, so this is a prefix test. -/
def matchMgrsTile (s : String) : Bool :=
  match s.toList with
  | d1 :: d2 :: u1 :: u2 :: u3 :: _ =>
      d1.isDigit && d2.isDigit && u1.isUpper && u2.isUpper && u3.isUpper
  | _ => false

/-- `re.compile(r'T\d{2}[A-Z]{3}').match(s)` (prefix test). -/
def matchMgrsTileT (s : String) : Bool :=
  match s.toList with
  | 'T' :: d1 :: d2 :: u1 :: u2 :: u3 :: _ =>
      d1.isDigit && d2.isDigit && u1.isUpper && u2.isUpper && u3.isUpper
  | _ => false

/-- The band names accepted for `--l30-v2-bands`. -/
def l30AllowedBands : List String :=
  ["B09", "VZA", "SAA", "B10", "B03", "B05", "Fmask", "B07", "B02", "SZA",
   "B04", "B06", "B01", "VAA", "B11", "browse", "metadata"]

/-- The band names accepted for `--s30-v2-bands`. -/
def s30AllowedBands : List String :=
  ["B06", "SZA", "B07", "B10", "B09", "B05", "B08", "B02", "VAA", "B01",
   "SAA", "B8A", "B04", "B12", "Fmask", "B11", "B03", "VZA", "browse", "metadata"]

/-- The month names accepted for `--months`. -/
def monthNames : List String :=
  ["Jan", "Feb", "Mar", "Apr", "May", "Jun", "Jul", "Aug", "Sep", "Oct", "Nov", "Dec"]

/-- `set(xs).issubset(allowed)`. -/
def subsetOf (xs allowed : List String) : Bool :=
  xs.all (fun x => allowed.contains x)

/-- The asserts of `verify_input_args` that sit inside the
new-Study-Area `else` branch after the tile/bbox/intersects selection
(cloud-cover range, spatial-coverage range, months subset, collections
subset; the `isinstance` check on `same_day` is vacuous in the typed
model). -/
def verifyFilterRanges (a : Args) : Except String Args :=
  if ¬ (0 ≤ a.cloud_cover_max ∧ a.cloud_cover_max ≤ 100) then
    .error "cloud_cover_max input must be between 0 and 100, inclusive."
  else if ¬ (0 ≤ a.spatial_coverage_min ∧ a.spatial_coverage_min ≤ 100) then
    .error "spatial_coverage_min input must be between 0 and 100, inclusive."
  else if ¬ (subsetOf (splitOnChar ',' a.months) monthNames = true) then
    .error "months input must be a subset of the month names."
  else if ¬ (subsetOf (splitOnChar ',' a.collections) ["HLSL30.v2.0", "HLSS30.v2.0"] = true) then
    .error "Only HLSL30.v2.0 and/or HLSS30.v2.0 currently supported for --collections input."
  else .ok a

/-- The query-input selection of `verify_input_args` (source lines
431–468): with granule ids provided, only their format is checked and
every other query filter input is skipped; otherwise a date range is
required and then either a well-formed tile id is provided (bounding box
and intersects are not examined), or exactly one of bounding box and
intersects must be set (their three-way `bool(...) ^ ...` with the empty
tile id), with an existence check on the intersects path. -/
def verifyQuerySelection (env : Env) (a : Args) : Except String Args :=
  if a.granule_ids ≠ "" then
    if (splitOnChar ',' a.granule_ids).all matchHLSGranuleId then .ok a
    else .error "For --granule-id, a provided granule ID does not match HLS 2.0 specification."
  else
    if a.date_range = "" then
      .error "A date_range must be provided and not an empty string."
    else if a.tile_id ≠ "" then
      -- the failure message of this assert references an undefined
      -- variable (`tile`), a NameError in Python; both are failures
      if matchMgrsTile a.tile_id || matchMgrsTileT a.tile_id then verifyFilterRanges a
      else .error "For --tile-id, the provided MGRS Tile ID does not match the pattern."
    else
      if Bool.xor (Bool.xor (a.bounding_box ≠ "") (a.intersects ≠ "")) (a.tile_id ≠ "") then
        if a.intersects ≠ "" then
          if env.pathExists a.intersects then verifyFilterRanges a
          else .error "--intersects argument should be a path to a GEOJSON file."
        else verifyFilterRanges a
      else
        .error "Either a bounding box, tile id, or intersects argument must be provided, but not more than one."

/-- `args_setup.verify_input_args`: the asserts in source order.  The
`isinstance` checks are vacuous in the typed model; the two warn-only
checks (missing PROTEUS bands) do not gate anything and are omitted; the
`ncpu` clamp mutates the argument set, so the function returns the
(possibly clamped) arguments. -/
def verify_input_args (env : Env) (a : Args) : Except String Args :=
  if ¬ (env.isdir a.root_dir = true) then
    .error "root_dir is not a valid directory."
  else if a.job_name = "" then
    .error "--job_name must be provided and not an empty string."
  else if ¬ (0 < a.ncpu) then
    .error "--ncpu must be greater than 0 and an integer"
  else
    let a := if env.cpu_count < a.ncpu then { a with ncpu := env.cpu_count } else a
    if ¬ (env.pathExists a.dem_file = true) then
      .error "--dem_file does not exist."
    else if ¬ (env.pathExists a.landcover_file = true) then
      .error "--landcover_file does not exist."
    else if ¬ (env.pathExists a.worldcover_file = true) then
      .error "--worldcover_file does not exist."
    else if ¬ (subsetOf (splitOnChar ',' a.l30_v2_bands) l30AllowedBands = true) then
      .error "l30_v2_bands input must be a subset of the allowed band names."
    else if ¬ (subsetOf (splitOnChar ',' a.s30_v2_bands) s30AllowedBands = true) then
      .error "s30_v2_bands input must be a subset of the allowed band names."
    else if a.rerun then
      if ¬ (env.isdir (a.root_dir ++ "/" ++ a.job_name) = true) then
        .error "For --rerun option, the study area directory must already exist."
      else if ¬ (env.pathExists (a.root_dir ++ "/" ++ a.job_name ++ "/settings.json") = true) then
        .error "settings.json is missing and required for --rerun."
      else if ¬ (env.pathExists (a.root_dir ++ "/" ++ a.job_name ++ "/query_results.pickle") = true) then
        .error "query_results.pickle is missing and required for --rerun."
      else verifyQuerySelection env a
    else verifyQuerySelection env a

/-! ## Query Result Store
(`main`'s `settings.json` write + `save_query_results_to_file`, and the
rerun read-back: `json.load` in `parse_args` and `pickle.load` in `main`)

The byte-level formats are those of the external `json` and `pickle`
modules, which are not part of this repository.  Modelled from the spec:
the settings artifact is "structured text (key/value), one field per
Filter Parameter" and the snapshot is an "opaque binary blob
round-tripping the full Candidate Record set, including nested asset URL
maps"; accordingly the settings become an ordered key/value list of
JSON-style scalars (one entry per `Args` field, in argparse order) and
the snapshot becomes a token stream from which every record field,
including the asset map, is decoded back. -/

/-- A JSON scalar as stored in `settings.json`. -/
inductive JVal
  | jstr (s : String)
  | jint (n : Int)
  | jbool (b : Bool)
deriving DecidableEq

/-- Modelled from the spec: `json.dumps(args)` — the settings artifact
as an ordered key/value list, one entry per argparse destination. -/
def settings_dump (a : Args) : List (String × JVal) :=
  [("scaling_runconfig", .jstr a.scaling_runconfig),
   ("root_dir", .jstr a.root_dir),
   ("job_name", .jstr a.job_name),
   ("ncpu", .jint a.ncpu),
   ("bounding_box", .jstr a.bounding_box),
   ("intersects", .jstr a.intersects),
   ("granule_ids", .jstr a.granule_ids),
   ("date_range", .jstr a.date_range),
   ("months", .jstr a.months),
   ("tile_id", .jstr a.tile_id),
   ("cloud_cover_max", .jint a.cloud_cover_max),
   ("spatial_coverage_min", .jint a.spatial_coverage_min),
   ("same_day", .jbool a.same_day),
   ("do_not_download", .jbool a.do_not_download),
   ("do_not_process", .jbool a.do_not_process),
   ("rerun", .jbool a.rerun),
   ("runconfig_yaml", .jstr a.runconfig_yaml),
   ("dem_file", .jstr a.dem_file),
   ("landcover_file", .jstr a.landcover_file),
   ("worldcover_file", .jstr a.worldcover_file),
   ("l30_v2_bands", .jstr a.l30_v2_bands),
   ("s30_v2_bands", .jstr a.s30_v2_bands),
   ("stac_url_lpcloud", .jstr a.stac_url_lpcloud),
   ("collections", .jstr a.collections),
   ("verbose", .jbool a.verbose)]

/-- Fetch a string field from loaded settings. -/
def getJStr (k : String) (l : List (String × JVal)) : Option String :=
  match lookupA k l with
  | some (.jstr s) => some s
  | _ => none

/-- Fetch an integer field from loaded settings. -/
def getJInt (k : String) (l : List (String × JVal)) : Option Int :=
  match lookupA k l with
  | some (.jint n) => some n
  | _ => none

/-- Fetch a Boolean field from loaded settings. -/
def getJBool (k : String) (l : List (String × JVal)) : Option Bool :=
  match lookupA k l with
  | some (.jbool b) => some b
  | _ => none

/-- Job-setup fields of the settings artifact. -/
def settingsLoadJob (l : List (String × JVal)) :
    Option (String × String × String × Int × String) := do
  let scaling_runconfig ← getJStr "scaling_runconfig" l
  let root_dir ← getJStr "root_dir" l
  let job_name ← getJStr "job_name" l
  let ncpu ← getJInt "ncpu" l
  let bounding_box ← getJStr "bounding_box" l
  pure (scaling_runconfig, root_dir, job_name, ncpu, bounding_box)

/-- Query-selection fields of the settings artifact. -/
def settingsLoadQuery (l : List (String × JVal)) :
    Option (String × String × String × String × String) := do
  let intersects ← getJStr "intersects" l
  let granule_ids ← getJStr "granule_ids" l
  let date_range ← getJStr "date_range" l
  let months ← getJStr "months" l
  let tile_id ← getJStr "tile_id" l
  pure (intersects, granule_ids, date_range, months, tile_id)

/-- Filter and flag fields of the settings artifact. -/
def settingsLoadFilters (l : List (String × JVal)) :
    Option (Int × Int × Bool × Bool × Bool) := do
  let cloud_cover_max ← getJInt "cloud_cover_max" l
  let spatial_coverage_min ← getJInt "spatial_coverage_min" l
  let same_day ← getJBool "same_day" l
  let do_not_download ← getJBool "do_not_download" l
  let do_not_process ← getJBool "do_not_process" l
  pure (cloud_cover_max, spatial_coverage_min, same_day, do_not_download, do_not_process)

/-- Processing-input fields of the settings artifact. -/
def settingsLoadPaths (l : List (String × JVal)) :
    Option (Bool × String × String × String × String) := do
  let rerun ← getJBool "rerun" l
  let runconfig_yaml ← getJStr "runconfig_yaml" l
  let dem_file ← getJStr "dem_file" l
  let landcover_file ← getJStr "landcover_file" l
  let worldcover_file ← getJStr "worldcover_file" l
  pure (rerun, runconfig_yaml, dem_file, landcover_file, worldcover_file)

/-- Band/collection fields of the settings artifact. -/
def settingsLoadBands (l : List (String × JVal)) :
    Option (String × String × String × String × Bool) := do
  let l30_v2_bands ← getJStr "l30_v2_bands" l
  let s30_v2_bands ← getJStr "s30_v2_bands" l
  let stac_url_lpcloud ← getJStr "stac_url_lpcloud" l
  let collections ← getJStr "collections" l
  let verbose ← getJBool "verbose" l
  pure (l30_v2_bands, s30_v2_bands, stac_url_lpcloud, collections, verbose)

/-- Modelled from the spec: `json.load` of the settings artifact — look
up every Filter Parameter field by key. -/
def settings_load (l : List (String × JVal)) : Option Args := do
  let (scaling_runconfig, root_dir, job_name, ncpu, bounding_box) ← settingsLoadJob l
  let (intersects, granule_ids, date_range, months, tile_id) ← settingsLoadQuery l
  let (cloud_cover_max, spatial_coverage_min, same_day, do_not_download, do_not_process) ←
    settingsLoadFilters l
  let (rerun, runconfig_yaml, dem_file, landcover_file, worldcover_file) ← settingsLoadPaths l
  let (l30_v2_bands, s30_v2_bands, stac_url_lpcloud, collections, verbose) ← settingsLoadBands l
  pure ⟨scaling_runconfig, root_dir, job_name, ncpu, bounding_box, intersects,
        granule_ids, date_range, months, tile_id, cloud_cover_max,
        spatial_coverage_min, same_day, do_not_download, do_not_process, rerun,
        runconfig_yaml, dem_file, landcover_file, worldcover_file, l30_v2_bands,
        s30_v2_bands, stac_url_lpcloud, collections, verbose⟩

/-- A token of the working-set snapshot stream. -/
inductive PTok
  | pstr (s : String)
  | pnat (n : Nat)
deriving DecidableEq

/-- Serialize an asset map (band name / href pairs). -/
def encPairs : List (String × String) → List PTok
  | [] => []
  | (k, v) :: t => .pstr k :: .pstr v :: encPairs t

/-- Serialize one Candidate Record with all of its attributes. -/
def encItem (it : Item) : List PTok :=
  .pstr it.id :: .pstr it.datetime :: .pnat it.assets.length :: encPairs it.assets

/-- Serialize the entries of the working set. -/
def encEntries : List (String × Item) → List PTok
  | [] => []
  | (g, it) :: t => .pstr g :: (encItem it ++ encEntries t)

/-- Modelled from the spec: `pickle.dump(granules_to_download)` — the
working-set snapshot as a token stream. -/
def pickle_dump (ws : List (String × Item)) : List PTok :=
  .pnat ws.length :: encEntries ws

/-- Decode an asset map of known length. -/
def decPairs : Nat → List PTok → Option (List (String × String) × List PTok)
  | 0, ts => some ([], ts)
  | n + 1, .pstr k :: .pstr v :: ts =>
      (decPairs n ts).map (fun r => ((k, v) :: r.1, r.2))
  | _ + 1, _ => none

/-- Decode one Candidate Record. -/
def decItem : List PTok → Option (Item × List PTok)
  | .pstr i :: .pstr dt :: .pnat n :: ts =>
      (decPairs n ts).map (fun r => (⟨i, dt, r.1⟩, r.2))
  | _ => none

/-- Decode a known number of working-set entries. -/
def decEntries : Nat → List PTok → Option (List (String × Item) × List PTok)
  | 0, ts => some ([], ts)
  | n + 1, .pstr g :: ts =>
      (decItem ts).bind (fun r =>
        (decEntries n r.2).map (fun r2 => ((g, r.1) :: r2.1, r2.2)))
  | _ + 1, _ => none

/-- Modelled from the spec: `pickle.load` — decode the snapshot back
into the working set, requiring the stream to be consumed in full. -/
def pickle_load (ts : List PTok) : Option (List (String × Item)) :=
  match ts with
  | .pnat n :: rest =>
      match decEntries n rest with
      | some (l, []) => some l
      | _ => none
  | _ => none

/-- `persist(parameters, working_set, destination)`: the two artifacts
written after filtering completes (`settings.json`,
`query_results.pickle`). -/
def persistQueryState (a : Args) (ws : List (String × Item)) :
    List (String × JVal) × List PTok :=
  (settings_dump a, pickle_dump ws)

/-- `load(destination)`: the rerun read-back of both artifacts. -/
def loadQueryState (d : List (String × JVal) × List PTok) :
    Option (Args × List (String × Item)) :=
  match settings_load d.1, pickle_load d.2 with
  | some a, some ws => some (a, ws)
  | _, _ => none

/-! ## Decidability of the dict well-formedness predicate -/

instance {α : Type} (d : List (String × α)) : Decidable (NodupKeys d) :=
  inferInstanceAs (Decidable (dictKeys d).Nodup)

instance {ε α : Type} [DecidableEq ε] [DecidableEq α] : DecidableEq (Except ε α) := fun x y =>
  match x, y with
  | .error a, .error b =>
      if h : a = b then .isTrue (by rw [h]) else .isFalse (fun hc => h (Except.error.inj hc))
  | .ok a, .ok b =>
      if h : a = b then .isTrue (by rw [h]) else .isFalse (fun hc => h (Except.ok.inj hc))
  | .error _, .ok _ => .isFalse (fun hc => Except.noConfusion hc)
  | .ok _, .error _ => .isFalse (fun hc => Except.noConfusion hc)

/-! ## Concrete example data (used to instantiate the general theorems) -/

/-- An L30 granule. -/
def itThreeL1 : Item :=
  ⟨"HLS.L30.T11TLH.2020160T183142.v2.0", "2020-06-08T18:31:42.000Z",
    [("metadata", "https://cmr/meta/L1.xml")]⟩

/-- The S30 partner of `itThreeL1` (same tile, same day). -/
def itThreeS1 : Item :=
  ⟨"HLS.S30.T11TLH.2020160T220529.v2.0", "2020-06-08T22:05:29.000Z",
    [("metadata", "https://cmr/meta/S1.xml")]⟩

/-- An unpaired L30 granule on the same tile, five days later. -/
def itThreeL2 : Item :=
  ⟨"HLS.L30.T11TLH.2020165T183142.v2.0", "2020-06-13T18:31:42.000Z",
    [("metadata", "https://cmr/meta/L2.xml")]⟩

/-- The working set {L30@(d,t), S30@(d,t), L30@(d2,t)} of the
specification's pairing example. -/
def wsThree : List (String × Item) :=
  [(itThreeL1.id, itThreeL1), (itThreeS1.id, itThreeS1), (itThreeL2.id, itThreeL2)]

/-- Filter parameters with no optional filter active. -/
def paramsOpen : Params :=
  { collections := ["HLSL30.v2.0", "HLSS30.v2.0"]
    bounding_box := "-120 43 -118 48"
    intersects := ""
    granule_ids := ""
    date_range := "2020-06-01/2020-06-30"
    tile_id := ""
    months := [1, 2, 3, 4, 5, 6, 7, 8, 9, 10, 11, 12]
    spatial_coverage_min := 0
    cloud_cover_max := 100
    same_day := false
    verbose := false
    l30_v2_bands := ["B02", "B03", "B04", "B05", "B06", "B07", "Fmask"]
    s30_v2_bands := ["B02", "B03", "B04", "B8A", "B11", "B12", "Fmask"] }

/-- Parameters with a cloud-cover ceiling of 0 (every clouded granule is
filtered out). -/
def paramsCloudZero : Params :=
  { paramsOpen with cloud_cover_max := 0 }

/-- Parameters with both metadata thresholds active (ceiling 50,
floor 10). -/
def paramsCloudActive : Params :=
  { paramsOpen with cloud_cover_max := 50, spatial_coverage_min := 10 }

/-- A metadata oracle returning an empty document. -/
def fetchNone : String → List MetaAttr := fun _ => []

/-- A metadata oracle reporting 50 % cloud coverage for every granule. -/
def fetchCloud50 : String → List MetaAttr := fun _ => [.cloudCoverage 50]

/-- The granule id of the worked parsing example. -/
def gidL30 : String := "HLS.L30.T11TLH.2020160T183142.v2.0"

/-- A metadata document of a Landsat-9 granule that also carries cloud
and spatial coverage attributes, in the order they appear in HLS
metadata files. -/
def attrsLandsat9 : List MetaAttr :=
  [.landsatProductID "LC09_L1TP_022033_20220103_20220108_02_T1",
   .cloudCoverage 10, .spatialCoverage 90]

/-- The argparse default argument values (with `ncpu` fixed at 4). -/
def argsDefault : Args :=
  { scaling_runconfig := ""
    root_dir := "."
    job_name := "StudyArea"
    ncpu := 4
    bounding_box := ""
    intersects := ""
    granule_ids := ""
    date_range := ""
    months := "Jan,Feb,Mar,Apr,May,Jun,Jul,Aug,Sep,Oct,Nov,Dec"
    tile_id := ""
    cloud_cover_max := 100
    spatial_coverage_min := 0
    same_day := false
    do_not_download := false
    do_not_process := false
    rerun := false
    runconfig_yaml := "./src/proteus/defaults/dswx_hls.yaml"
    dem_file := "/dat/nisar-dem-copernicus/EPSG4326.vrt"
    landcover_file := "/dat/copernicus_landcover/landcover.tif"
    worldcover_file := "/dat/worldcover/landcover.vrt"
    l30_v2_bands := "B02,B03,B04,B05,B06,B07,Fmask,browse"
    s30_v2_bands := "B02,B03,B04,B8A,B11,B12,Fmask,browse"
    stac_url_lpcloud := "https://cmr.earthdata.nasa.gov/stac/LPCLOUD/"
    collections := "HLSL30.v2.0,HLSS30.v2.0"
    verbose := false }

/-- An argument set that provides BOTH an explicit granule-id list and a
bounding box. -/
def argsMultiQuery : Args :=
  { argsDefault with
      granule_ids := "HLS.L30.T04WFT.2022076T214936.v2.0"
      bounding_box := "-120 43 -118 48" }

/-- An argument set with a date range but none of the four
spatial/identity query inputs. -/
def argsNoQuery : Args :=
  { argsDefault with date_range := "2020-06-01/2020-06-30" }

/-- An environment in which every directory and path exists and 8 CPUs
are available. -/
def envAllPaths : Env :=
  { isdir := fun _ => true, pathExists := fun _ => true, cpu_count := 8 }

/-- A one-granule working set for the store round-trip instance. -/
def wsStoreExample : List (String × Item) :=
  [(itThreeS1.id, itThreeS1)]

/-! ## Association-list (dict model) lemmas -/

theorem mem_dictKeys {α : Type} {d : List (String × α)} {k : String} :
    k ∈ dictKeys d ↔ ∃ v, (k, v) ∈ d := by
  unfold dictKeys
  constructor
  · intro h
    obtain ⟨q, hq, he⟩ := List.mem_map.1 h
    exact ⟨q.2, by simpa [← he] using hq⟩
  · rintro ⟨v, hv⟩
    exact List.mem_map.2 ⟨(k, v), hv, rfl⟩

theorem mem_keys_dictErase {α : Type} {d : List (String × α)} {k x : String} :
    x ∈ dictKeys (dictErase k d) ↔ x ∈ dictKeys d ∧ x ≠ k := by
  simp only [mem_dictKeys, dictErase]
  constructor
  · rintro ⟨v, hv⟩
    have h1 := List.mem_of_mem_filter hv
    have h2 := List.of_mem_filter hv
    simp only [decide_eq_true_eq] at h2
    exact ⟨⟨v, h1⟩, h2⟩
  · rintro ⟨⟨v, hv⟩, hne⟩
    exact ⟨v, List.mem_filter.2 ⟨hv, by simpa using hne⟩⟩

theorem mem_of_mem_dictErase {α : Type} {d : List (String × α)} {k : String}
    {q : String × α} (h : q ∈ dictErase k d) : q ∈ d :=
  List.mem_of_mem_filter h

theorem nodupKeys_filter {α : Type} (f : String × α → Bool) {d : List (String × α)}
    (h : NodupKeys d) : NodupKeys (d.filter f) := by
  unfold NodupKeys dictKeys at *
  exact ((List.filter_sublist d).map Prod.fst).nodup h

theorem nodupKeys_dictErase {α : Type} {d : List (String × α)} (k : String)
    (h : NodupKeys d) : NodupKeys (dictErase k d) :=
  nodupKeys_filter _ h

theorem mem_keys_of_mem {α : Type} {d : List (String × α)} {k : String} {v : α}
    (h : (k, v) ∈ d) : k ∈ dictKeys d :=
  mem_dictKeys.2 ⟨v, h⟩

theorem value_unique_of_nodupKeys {α : Type} {d : List (String × α)} (h : NodupKeys d)
    {k : String} {v v' : α} (h1 : (k, v) ∈ d) (h2 : (k, v') ∈ d) : v = v' := by
  induction d with
  | nil => cases h1
  | cons hd tl ih =>
      unfold NodupKeys dictKeys at h
      simp only [List.map_cons, List.nodup_cons] at h
      rcases List.mem_cons.1 h1 with he1 | ht1 <;>
        rcases List.mem_cons.1 h2 with he2 | ht2
      · rw [← he1] at he2; exact congrArg Prod.snd he2.symm
      · have hk : hd.1 = k := by rw [← he1]
        have hm : k ∈ List.map Prod.fst tl := mem_keys_of_mem ht2
        exact absurd hm (hk ▸ h.1)
      · have hk : hd.1 = k := by rw [← he2]
        have hm : k ∈ List.map Prod.fst tl := mem_keys_of_mem ht1
        exact absurd hm (hk ▸ h.1)
      · exact ih h.2 ht1 ht2

theorem mem_dictInsert {α : Type} {d : List (String × α)} {k g : String} {v w : α}
    (h : (g, w) ∈ dictInsert k v d) : (g = k ∧ w = v) ∨ (g, w) ∈ d := by
  induction d with
  | nil => simp [dictInsert] at h; exact Or.inl h
  | cons hd tl ih =>
      by_cases he : hd.1 = k
      · simp only [dictInsert] at h
        rw [if_pos he] at h
        rcases List.mem_cons.1 h with h1 | h1
        · exact Or.inl ⟨congrArg Prod.fst h1, congrArg Prod.snd h1⟩
        · exact Or.inr (List.mem_cons_of_mem _ h1)
      · simp only [dictInsert] at h
        rw [if_neg he] at h
        rcases List.mem_cons.1 h with h1 | h1
        · exact Or.inr (h1 ▸ List.mem_cons_self _ _)
        · rcases ih h1 with h2 | h2
          · exact Or.inl h2
          · exact Or.inr (List.mem_cons_of_mem _ h2)

theorem mem_keys_dictInsert {α : Type} {d : List (String × α)} {k g : String} {v : α} :
    g ∈ dictKeys (dictInsert k v d) ↔ g = k ∨ g ∈ dictKeys d := by
  induction d with
  | nil => simp [dictInsert, dictKeys]
  | cons hd tl ih =>
      by_cases he : hd.1 = k
      · simp only [dictInsert, if_pos he, dictKeys, List.map_cons, List.mem_cons]
        constructor
        · rintro (h | h)
          · exact Or.inl h
          · exact Or.inr (Or.inr h)
        · rintro (h | h | h)
          · exact Or.inl h
          · exact Or.inl (by rw [h, he])
          · exact Or.inr h
      · simp only [dictInsert, if_neg he, dictKeys, List.map_cons, List.mem_cons] at ih ⊢
        rw [ih]
        tauto

theorem nodupKeys_dictInsert {α : Type} {d : List (String × α)} (k : String) (v : α)
    (h : NodupKeys d) : NodupKeys (dictInsert k v d) := by
  induction d with
  | nil => simp [dictInsert, NodupKeys, dictKeys]
  | cons hd tl ih =>
      unfold NodupKeys dictKeys at h
      simp only [List.map_cons, List.nodup_cons] at h
      by_cases he : hd.1 = k
      · unfold NodupKeys dictKeys
        simp only [dictInsert, if_pos he, List.map_cons, List.nodup_cons]
        exact ⟨by rw [← he]; exact h.1, h.2⟩
      · have ih2 := ih h.2
        unfold NodupKeys dictKeys at ih2 ⊢
        simp only [dictInsert, if_neg he, List.map_cons, List.nodup_cons]
        refine ⟨fun hc => ?_, ih2⟩
        rcases mem_keys_dictInsert.1 hc with h1 | h1
        · exact he h1
        · exact h.1 h1

/-! ## Lemmas about the same-day pairing scan -/

theorem countKey_nil (k : String) : countKey k [] = 0 := rfl

theorem countKey_cons (k g : String) (gs : List String) :
    countKey k (g :: gs) =
      countKey k gs + (if date_tileID g = k then 1 else 0) := by
  simp [countKey, List.countP_cons]

/-- Parity law of the scan: a key is present in the resulting
`unmatched_granules` dict iff the number of its occurrences among the
scanned ids, plus one if it was present initially, is odd. -/
theorem sameDayScan_parity (k : String) :
    ∀ (gs : List String) (um : List (String × String)),
      (k ∈ dictKeys (sameDayScan gs um)) ↔
        (countKey k gs + (if k ∈ dictKeys um then 1 else 0)) % 2 = 1 := by
  intro gs
  induction gs with
  | nil =>
      intro um
      by_cases h : k ∈ dictKeys um <;> simp [sameDayScan, countKey, h]
  | cons g gs ih =>
      intro um
      simp only [sameDayScan]
      by_cases hbr : date_tileID g ∈ um.map Prod.fst
      · rw [if_pos hbr]
        rw [ih (dictErase (date_tileID g) um)]
        by_cases hk : date_tileID g = k
        · have h1 : ¬ (k ∈ dictKeys (dictErase (date_tileID g) um)) := by
            rw [mem_keys_dictErase]
            rintro ⟨_, hne⟩
            exact hne hk.symm
          have h2 : k ∈ dictKeys um := hk ▸ hbr
          rw [countKey_cons, if_pos hk, if_neg h1, if_pos h2]
          omega
        · have h1 : k ∈ dictKeys (dictErase (date_tileID g) um) ↔ k ∈ dictKeys um := by
            rw [mem_keys_dictErase]
            exact ⟨fun h => h.1, fun h => ⟨h, fun he => hk (he.symm)⟩⟩
          rw [countKey_cons, if_neg hk]
          simp only [h1, Nat.add_zero]
      · rw [if_neg hbr]
        rw [ih (um ++ [(date_tileID g, g)])]
        have hms : k ∈ dictKeys (um ++ [(date_tileID g, g)]) ↔
            k ∈ dictKeys um ∨ date_tileID g = k := by
          unfold dictKeys
          simp [eq_comm]
        by_cases hk : date_tileID g = k
        · have h2 : ¬ (k ∈ dictKeys um) := hk ▸ hbr
          rw [countKey_cons, if_pos hk]
          rw [if_pos (hms.2 (Or.inr hk)), if_neg h2]
        · have h1 : k ∈ dictKeys (um ++ [(date_tileID g, g)]) ↔ k ∈ dictKeys um := by
            rw [hms]
            exact ⟨fun h => h.resolve_right hk, Or.inl⟩
          rw [countKey_cons, if_neg hk]
          simp only [h1, Nat.add_zero]

/-- The scan preserves duplicate-freeness of the `unmatched_granules`
keys. -/
theorem sameDayScan_nodupKeys :
    ∀ (gs : List String) (um : List (String × String)),
      NodupKeys um → NodupKeys (sameDayScan gs um) := by
  intro gs
  induction gs with
  | nil => intro um h; exact h
  | cons g gs ih =>
      intro um h
      simp only [sameDayScan]
      by_cases hbr : date_tileID g ∈ um.map Prod.fst
      · rw [if_pos hbr]
        exact ih _ (nodupKeys_dictErase _ h)
      · rw [if_neg hbr]
        refine ih _ ?_
        unfold NodupKeys dictKeys at h ⊢
        simp only [List.map_append, List.map_cons, List.map_nil]
        rw [List.nodup_append]
        exact ⟨h, List.nodup_singleton _,
          by simpa [List.disjoint_singleton] using hbr⟩

/-- Provenance of scan entries: every entry either stems from a scanned
granule id (keyed by its own `date_tileID`) or was already present. -/
theorem sameDayScan_mem :
    ∀ (gs : List String) (um : List (String × String)) (k g : String),
      (k, g) ∈ sameDayScan gs um →
      (g ∈ gs ∧ date_tileID g = k) ∨ (k, g) ∈ um := by
  intro gs
  induction gs with
  | nil => intro um k g h; exact Or.inr h
  | cons g0 gs ih =>
      intro um k g h
      simp only [sameDayScan] at h
      by_cases hbr : date_tileID g0 ∈ um.map Prod.fst
      · rw [if_pos hbr] at h
        rcases ih _ _ _ h with h1 | h1
        · exact Or.inl ⟨List.mem_cons_of_mem _ h1.1, h1.2⟩
        · exact Or.inr (mem_of_mem_dictErase h1)
      · rw [if_neg hbr] at h
        rcases ih _ _ _ h with h1 | h1
        · exact Or.inl ⟨List.mem_cons_of_mem _ h1.1, h1.2⟩
        · rcases List.mem_append.1 h1 with h2 | h2
          · exact Or.inr h2
          · have h3 : (k, g) = (date_tileID g0, g0) := by simpa using h2
            have hg : g = g0 := congrArg Prod.snd h3
            have hk : date_tileID g = k := by
              rw [hg]
              exact (congrArg Prod.fst h3).symm
            exact Or.inl ⟨hg ▸ List.mem_cons_self _ _, hk⟩

/-- A granule id whose key occurs an even number of times is never
deleted by the pairing filter (it is not among the scan's values). -/
theorem not_mem_scanValues_of_even (gs : List String) (g : String)
    (h : countKey (date_tileID g) gs % 2 = 0) :
    g ∉ (sameDayScan gs []).map Prod.snd := by
  intro hmem
  obtain ⟨q, hq, he⟩ := List.mem_map.1 hmem
  obtain ⟨k, g'⟩ := q
  cases he
  rcases sameDayScan_mem gs [] k g' hq with h1 | h1
  · have hkeys : k ∈ dictKeys (sameDayScan gs []) := mem_keys_of_mem hq
    rw [sameDayScan_parity] at hkeys
    simp only [dictKeys, List.map_nil, List.not_mem_nil, if_false] at hkeys
    rw [h1.2] at h
    omega
  · cases h1

/-- A granule id whose key occurs exactly once is deleted by the pairing
filter (it is among the scan's values). -/
theorem mem_scanValues_of_count_one (gs : List String) (g : String)
    (hg : g ∈ gs) (h1 : countKey (date_tileID g) gs = 1) :
    g ∈ (sameDayScan gs []).map Prod.snd := by
  have hkeys : date_tileID g ∈ dictKeys (sameDayScan gs []) := by
    rw [sameDayScan_parity]
    simp only [dictKeys, List.map_nil, List.not_mem_nil, if_false]
    omega
  obtain ⟨g', hmem⟩ := mem_dictKeys.1 hkeys
  rcases sameDayScan_mem gs [] _ _ hmem with h2 | h2
  · have hgf : g ∈ gs.filter (fun x => decide (date_tileID x = date_tileID g)) :=
      List.mem_filter.2 ⟨hg, by simp⟩
    have hgf2 : g' ∈ gs.filter (fun x => decide (date_tileID x = date_tileID g)) :=
      List.mem_filter.2 ⟨h2.1, by simp [h2.2]⟩
    have hlen : (gs.filter (fun x => decide (date_tileID x = date_tileID g))).length = 1 := by
      rw [← List.countP_eq_length_filter]
      exact h1
    obtain ⟨x, hx⟩ := List.length_eq_one.1 hlen
    rw [hx] at hgf hgf2
    have : g = g' := by
      rw [List.mem_singleton.1 hgf, List.mem_singleton.1 hgf2]
    exact this ▸ List.mem_map.2 ⟨_, hmem, rfl⟩
  · cases h2

theorem countP_congr_mem {α : Type} (p q : α → Bool) :
    ∀ (l : List α), (∀ a ∈ l, p a = q a) → l.countP p = l.countP q := by
  intro l
  induction l with
  | nil => intro _; rfl
  | cons hd tl ih =>
      intro h
      simp only [List.countP_cons, h hd (List.mem_cons_self hd tl),
        ih (fun a ha => h a (List.mem_cons_of_mem hd ha))]

theorem countP_split {α : Type} (p q : α → Bool) :
    ∀ (l : List α),
      l.countP p = l.countP (fun a => p a && q a) + l.countP (fun a => p a && !(q a)) := by
  intro l
  induction l with
  | nil => rfl
  | cons hd tl ih =>
      simp only [List.countP_cons, ih]
      cases hp : p hd <;> cases hq : q hd <;> simp <;> omega

theorem dictKeys_filter_notMem {α : Type} (V : List String) (d : List (String × α)) :
    dictKeys (d.filter (fun q => q.1 ∉ V)) = (dictKeys d).filter (fun x => x ∉ V) := by
  induction d with
  | nil => rfl
  | cons hd tl ih =>
      by_cases h : hd.1 ∈ V <;>
        simp only [dictKeys, List.filter_cons, List.map_cons, h, decide_not,
          decide_eq_true_eq] at ih ⊢ <;> simp [h, ih]

/-- After one pass of the pairing filter, every `date_tileID` key occurs
an even number of times among the remaining granule ids. -/
theorem countKey_pairFilter_even (ws : List (String × Item)) (hnd : NodupKeys ws)
    (k : String) :
    countKey k (dictKeys (filter_dict_for_S30_L30_sameDay ws)) % 2 = 0 := by
  have hkeys : dictKeys (filter_dict_for_S30_L30_sameDay ws) =
      (dictKeys ws).filter
        (fun x => x ∉ (sameDayScan (dictKeys ws) []).map Prod.snd) := by
    unfold filter_dict_for_S30_L30_sameDay
    exact dictKeys_filter_notMem _ ws
  rw [hkeys]
  unfold countKey
  rw [List.countP_filter]
  rcases Nat.mod_two_eq_zero_or_one (countKey k (dictKeys ws)) with h0 | h1
  · have hcong : (dictKeys ws).countP
        (fun a => decide (date_tileID a = k) &&
          decide (a ∉ (sameDayScan (dictKeys ws) []).map Prod.snd)) =
        (dictKeys ws).countP (fun a => decide (date_tileID a = k)) := by
      apply countP_congr_mem
      intro g _
      by_cases hgk : date_tileID g = k
      · have hnm : g ∉ (sameDayScan (dictKeys ws) []).map Prod.snd := by
          apply not_mem_scanValues_of_even
          rw [hgk]
          exact h0
        simp [hgk, hnm]
      · simp [hgk]
    rw [hcong]
    exact h0
  · -- odd total: exactly the key's single unmatched granule is removed
    have hk : k ∈ dictKeys (sameDayScan (dictKeys ws) []) := by
      rw [sameDayScan_parity]
      have hz : (if k ∈ dictKeys ([] : List (String × String)) then 1 else 0) = 0 := by
        simp [dictKeys]
      rw [hz]
      omega
    obtain ⟨gK, hgK⟩ := mem_dictKeys.1 hk
    have hprov := sameDayScan_mem (dictKeys ws) [] k gK hgK
    rcases hprov with hprov | hempty
    swap
    · cases hempty
    have hscanNodup : NodupKeys (sameDayScan (dictKeys ws) []) :=
      sameDayScan_nodupKeys _ [] (by simp [NodupKeys, dictKeys])
    have hVmem : ∀ g, g ∈ (sameDayScan (dictKeys ws) []).map Prod.snd →
        date_tileID g = k → g = gK := by
      intro g hgV hgk
      obtain ⟨q, hq, he⟩ := List.mem_map.1 hgV
      obtain ⟨k', g'⟩ := q
      cases he
      rcases sameDayScan_mem (dictKeys ws) [] k' g' hq with h2 | h2
      · have hkk : k' = k := by rw [← h2.2, hgk]
        subst hkk
        exact value_unique_of_nodupKeys hscanNodup hq hgK
      · cases h2
    have hcong : (dictKeys ws).countP
        (fun a => decide (date_tileID a = k) &&
          decide (a ∉ (sameDayScan (dictKeys ws) []).map Prod.snd)) =
        (dictKeys ws).countP
          (fun a => decide (date_tileID a = k) && !(decide (a = gK))) := by
      apply countP_congr_mem
      intro g _
      by_cases hgk : date_tileID g = k
      · by_cases hgG : g = gK
        · have hmemV : g ∈ (sameDayScan (dictKeys ws) []).map Prod.snd := by
            rw [hgG]
            exact List.mem_map.2 ⟨_, hgK, rfl⟩
          have hd1 : decide (g ∉ (sameDayScan (dictKeys ws) []).map Prod.snd) = false :=
            decide_eq_false (fun hc => hc hmemV)
          have hd2 : decide (g = gK) = true := decide_eq_true hgG
          rw [hd1, hd2]
          simp
        · have hnm : g ∉ (sameDayScan (dictKeys ws) []).map Prod.snd := by
            intro hc
            exact hgG (hVmem g hc hgk)
          have hd1 : decide (g ∉ (sameDayScan (dictKeys ws) []).map Prod.snd) = true :=
            decide_eq_true hnm
          have hd2 : decide (g = gK) = false := decide_eq_false hgG
          rw [hd1, hd2]
          simp
      · simp [hgk]
    rw [hcong]
    have hsplit := countP_split (fun a => decide (date_tileID a = k))
      (fun a => decide (a = gK)) (dictKeys ws)
    have hone : (dictKeys ws).countP
        (fun a => decide (date_tileID a = k) && decide (a = gK)) = 1 := by
      have hc : (dictKeys ws).countP
          (fun a => decide (date_tileID a = k) && decide (a = gK)) =
          (dictKeys ws).countP (fun a => a == gK) := by
        apply countP_congr_mem
        intro g _
        by_cases hgG : g = gK
        · subst hgG
          simp [hprov.2]
        · simp [hgG]
      rw [hc]
      exact List.count_eq_one_of_mem hnd hprov.1
    unfold countKey at h1
    omega

/-- A scan over ids with all-even key counts tracks nothing. -/
theorem sameDayScan_nil_of_even (gs : List String)
    (h : ∀ k, countKey k gs % 2 = 0) : sameDayScan gs [] = [] := by
  cases hscan : sameDayScan gs [] with
  | nil => rfl
  | cons e r =>
      exfalso
      have hk : e.1 ∈ dictKeys (sameDayScan gs []) := by
        rw [hscan]
        exact mem_keys_of_mem (show (e.1, e.2) ∈ e :: r from List.mem_cons_self e r)
      rw [sameDayScan_parity] at hk
      simp only [dictKeys, List.map_nil, List.not_mem_nil, if_false] at hk
      have := h e.1
      omega

/-- A working set whose scan tracks nothing is untouched by the pairing
filter. -/
theorem pairFilter_eq_self_of_scan_nil (d : List (String × Item))
    (h : sameDayScan (dictKeys d) [] = []) :
    filter_dict_for_S30_L30_sameDay d = d := by
  unfold filter_dict_for_S30_L30_sameDay
  rw [h]
  apply List.filter_eq_self.mpr
  intro q _
  simp

/-! ## Claim C8: idempotence of the same-day pairing filter -/

/-- C8 (confirmed): the same-day pairing filter is idempotent — for
every Working Set (a dict, so with duplicate-free keys), applying
`filter_dict_for_S30_L30_sameDay` twice yields the same Working Set as
applying it once; an already-paired set is a fixed point. -/
theorem claim_C8 (ws : List (String × Item)) (hnd : NodupKeys ws) :
    filter_dict_for_S30_L30_sameDay (filter_dict_for_S30_L30_sameDay ws) =
      filter_dict_for_S30_L30_sameDay ws :=
  pairFilter_eq_self_of_scan_nil _
    (sameDayScan_nil_of_even _ (countKey_pairFilter_even ws hnd))

/-- Witness for C8 at the three-granule example set. -/
theorem claim_C8_witness :
    NodupKeys wsThree ∧
    filter_dict_for_S30_L30_sameDay (filter_dict_for_S30_L30_sameDay wsThree) =
      filter_dict_for_S30_L30_sameDay wsThree :=
  ⟨by decide, claim_C8 wsThree (by decide)⟩

/-! ## Claim C2: correctness of the same-day pairing filter -/

theorem countKey_le_two (gs : List String) (hnd : gs.Nodup)
    (hfam : ∀ g ∈ gs, sensorOf g = "L30" ∨ sensorOf g = "S30")
    (hone : ∀ g1 ∈ gs, ∀ g2 ∈ gs, g1 ≠ g2 → date_tileID g1 = date_tileID g2 →
      sensorOf g1 ≠ sensorOf g2) (k : String) :
    countKey k gs ≤ 2 := by
  by_contra hgt
  unfold countKey at hgt
  have h3 : 3 ≤ (gs.filter (fun g => decide (date_tileID g = k))).length := by
    rw [← List.countP_eq_length_filter]
    omega
  cases hfe : gs.filter (fun g => decide (date_tileID g = k)) with
  | nil =>
      rw [hfe] at h3
      simp at h3
  | cons x rest1 =>
      cases rest1 with
      | nil =>
          rw [hfe] at h3
          simp at h3
      | cons y rest2 =>
          cases rest2 with
          | nil =>
              rw [hfe] at h3
              simp only [List.length_cons, List.length_nil] at h3
              omega
          | cons z t =>
              have hx : x ∈ gs ∧ date_tileID x = k := by
                have hm : x ∈ gs.filter (fun g => decide (date_tileID g = k)) := by
                  rw [hfe]
                  exact List.mem_cons_self _ _
                exact ⟨List.mem_of_mem_filter hm, by simpa using List.of_mem_filter hm⟩
              have hy : y ∈ gs ∧ date_tileID y = k := by
                have hm : y ∈ gs.filter (fun g => decide (date_tileID g = k)) := by
                  rw [hfe]
                  exact List.mem_cons_of_mem _ (List.mem_cons_self _ _)
                exact ⟨List.mem_of_mem_filter hm, by simpa using List.of_mem_filter hm⟩
              have hz : z ∈ gs ∧ date_tileID z = k := by
                have hm : z ∈ gs.filter (fun g => decide (date_tileID g = k)) := by
                  rw [hfe]
                  exact List.mem_cons_of_mem _
                    (List.mem_cons_of_mem _ (List.mem_cons_self _ _))
                exact ⟨List.mem_of_mem_filter hm, by simpa using List.of_mem_filter hm⟩
              have hndf := hnd.filter (fun g => decide (date_tileID g = k))
              rw [hfe] at hndf
              simp only [List.nodup_cons, List.mem_cons] at hndf
              have hxy : x ≠ y := fun he => hndf.1 (Or.inl he)
              have hxz : x ≠ z := fun he => hndf.1 (Or.inr (Or.inl he))
              have hyz : y ≠ z := fun he => hndf.2.1 (Or.inl he)
              have hkxy : date_tileID x = date_tileID y := by rw [hx.2, hy.2]
              have hkxz : date_tileID x = date_tileID z := by rw [hx.2, hz.2]
              have hkyz : date_tileID y = date_tileID z := by rw [hy.2, hz.2]
              rcases hfam x hx.1 with hfx | hfx <;> rcases hfam y hy.1 with hfy | hfy <;>
                rcases hfam z hz.1 with hfz | hfz
              · exact hone x hx.1 y hy.1 hxy hkxy (by rw [hfx, hfy])
              · exact hone x hx.1 y hy.1 hxy hkxy (by rw [hfx, hfy])
              · exact hone x hx.1 z hz.1 hxz hkxz (by rw [hfx, hfz])
              · exact hone y hy.1 z hz.1 hyz hkyz (by rw [hfy, hfz])
              · exact hone y hy.1 z hz.1 hyz hkyz (by rw [hfy, hfz])
              · exact hone x hx.1 z hz.1 hxz hkxz (by rw [hfx, hfz])
              · exact hone x hx.1 y hy.1 hxy hkxy (by rw [hfx, hfy])
              · exact hone x hx.1 y hy.1 hxy hkxy (by rw [hfx, hfy])

/-- C2 (confirmed): on a Working Set holding at most one granule per
sensor family for each `(date, tile)` key (sensor families being L30 and
S30), the same-day pairing filter retains exactly the granules whose key
occurs in two records and deletes every granule whose key occurs only
once. -/
theorem claim_C2 (ws : List (String × Item)) (hnd : NodupKeys ws)
    (hfam : ∀ g ∈ dictKeys ws, sensorOf g = "L30" ∨ sensorOf g = "S30")
    (hone : ∀ g1 ∈ dictKeys ws, ∀ g2 ∈ dictKeys ws, g1 ≠ g2 →
      date_tileID g1 = date_tileID g2 → sensorOf g1 ≠ sensorOf g2) :
    ∀ g it, ((g, it) ∈ filter_dict_for_S30_L30_sameDay ws ↔
      ((g, it) ∈ ws ∧ countKey (date_tileID g) (dictKeys ws) = 2)) := by
  intro g it
  have hle2 := countKey_le_two (dictKeys ws) hnd hfam hone (date_tileID g)
  have hdef : filter_dict_for_S30_L30_sameDay ws =
      ws.filter
        (fun q => decide (q.1 ∉ (sameDayScan (dictKeys ws) []).map Prod.snd)) := rfl
  rw [hdef]
  constructor
  · intro hm
    have hmem := (List.mem_filter.1 hm).1
    have hnotV : g ∉ (sameDayScan (dictKeys ws) []).map Prod.snd := by
      have := (List.mem_filter.1 hm).2
      simpa using this
    have hgs : g ∈ dictKeys ws := mem_keys_of_mem hmem
    have hge1 : 0 < countKey (date_tileID g) (dictKeys ws) :=
      List.countP_pos_iff.2 ⟨g, hgs, by simp⟩
    refine ⟨hmem, ?_⟩
    by_cases h1 : countKey (date_tileID g) (dictKeys ws) = 1
    · exact absurd (mem_scanValues_of_count_one _ _ hgs h1) hnotV
    · omega
  · rintro ⟨hmem, h2⟩
    have hnotV : g ∉ (sameDayScan (dictKeys ws) []).map Prod.snd := by
      apply not_mem_scanValues_of_even
      rw [h2]
    exact List.mem_filter.2 ⟨hmem, by simpa using hnotV⟩

/-- Witness for C2: from `{L30@(d,t), S30@(d,t), L30@(d2,t)}` the
pairing filter keeps exactly the first two and removes the third. -/
theorem claim_C2_witness :
    ((itThreeL1.id, itThreeL1) ∈ filter_dict_for_S30_L30_sameDay wsThree) ∧
    ((itThreeS1.id, itThreeS1) ∈ filter_dict_for_S30_L30_sameDay wsThree) ∧
    ((itThreeL2.id, itThreeL2) ∉ filter_dict_for_S30_L30_sameDay wsThree) := by
  have h := claim_C2 wsThree (by decide) (by decide) (by decide)
  refine ⟨(h _ _).mpr (by decide), (h _ _).mpr (by decide), fun hc => ?_⟩
  exact absurd ((h _ _).mp hc).2 (by decide)

/-! ## Claim C6: granule identifier parsing -/

/-- C6 counterexample (the claim as stated is false): parsing
`HLS.L30.T11TLH.2020160T183142.v2.0` does NOT return the tile with its
leading `T` stripped — `get_sensor_tileID_date` returns `id_split[2]`
unchanged. -/
theorem claim_C6_counterexample :
    ¬ (get_sensor_tileID_date "HLS.L30.T11TLH.2020160T183142.v2.0" =
        ("L30", "11TLH", "20200608")) := by decide

/-- C6 (corrected): parsing `HLS.L30.T11TLH.2020160T183142.v2.0` returns
sensor `L30`, the tile component as written in the id (`T11TLH`, with
its leading `T` kept), and calendar date 2020-06-08 — day 160 of 2020,
taken from the first 7 characters of the 4th dot-field. -/
theorem claim_C6 :
    get_sensor_tileID_date "HLS.L30.T11TLH.2020160T183142.v2.0" =
      ("L30", "T11TLH", "20200608") := by decide

/-! ## Claim C7: download retry behaviour -/

/-- C7 (code_bug evaluation): when the first `requests.get` raises, the
source's `download2file` sleeps 5 seconds and returns `False` after that
single attempt — the `return False` at the end of the `except` block
prevents the 2nd and 3rd attempts that its own log message announces. -/
theorem claim_C7 (e : String) (net : Nat → Except String Resp)
    (h : net 1 = .error e) :
    download2file net = { result := false, attempts := 1, sleep_secs := 5 } := by
  unfold download2file
  rw [h]

/-- Witness for C7 with an always-raising network. -/
theorem claim_C7_witness :
    download2file (fun _ => .error "ConnectionError") =
      { result := false, attempts := 1, sleep_secs := 5 } :=
  claim_C7 "ConnectionError" _ rfl

/-! ## Claim C10: the rerun merge frame -/

/-- C10 (confirmed): with the rerun flag set, `parse_args` returns the
persisted settings with exactly the five session values `root_dir`,
`job_name`, `do_not_download`, `do_not_process` and `verbose`
overwritten and `rerun` forced to `True`; all 19 other persisted fields
come back unchanged. -/
theorem claim_C10 (session persisted : Args) (h : session.rerun = true) :
    (parse_args_rerun_merge session persisted).root_dir = session.root_dir ∧
    (parse_args_rerun_merge session persisted).job_name = session.job_name ∧
    (parse_args_rerun_merge session persisted).do_not_download = session.do_not_download ∧
    (parse_args_rerun_merge session persisted).do_not_process = session.do_not_process ∧
    (parse_args_rerun_merge session persisted).verbose = session.verbose ∧
    (parse_args_rerun_merge session persisted).rerun = true ∧
    (parse_args_rerun_merge session persisted).scaling_runconfig = persisted.scaling_runconfig ∧
    (parse_args_rerun_merge session persisted).ncpu = persisted.ncpu ∧
    (parse_args_rerun_merge session persisted).bounding_box = persisted.bounding_box ∧
    (parse_args_rerun_merge session persisted).intersects = persisted.intersects ∧
    (parse_args_rerun_merge session persisted).granule_ids = persisted.granule_ids ∧
    (parse_args_rerun_merge session persisted).date_range = persisted.date_range ∧
    (parse_args_rerun_merge session persisted).months = persisted.months ∧
    (parse_args_rerun_merge session persisted).tile_id = persisted.tile_id ∧
    (parse_args_rerun_merge session persisted).cloud_cover_max = persisted.cloud_cover_max ∧
    (parse_args_rerun_merge session persisted).spatial_coverage_min = persisted.spatial_coverage_min ∧
    (parse_args_rerun_merge session persisted).same_day = persisted.same_day ∧
    (parse_args_rerun_merge session persisted).runconfig_yaml = persisted.runconfig_yaml ∧
    (parse_args_rerun_merge session persisted).dem_file = persisted.dem_file ∧
    (parse_args_rerun_merge session persisted).landcover_file = persisted.landcover_file ∧
    (parse_args_rerun_merge session persisted).worldcover_file = persisted.worldcover_file ∧
    (parse_args_rerun_merge session persisted).l30_v2_bands = persisted.l30_v2_bands ∧
    (parse_args_rerun_merge session persisted).s30_v2_bands = persisted.s30_v2_bands ∧
    (parse_args_rerun_merge session persisted).stac_url_lpcloud = persisted.stac_url_lpcloud ∧
    (parse_args_rerun_merge session persisted).collections = persisted.collections := by
  simp [parse_args_rerun_merge, h]

/-- Witness for C10 at a concrete session/persisted pair. -/
theorem claim_C10_witness :
    ({ argsDefault with rerun := true } : Args).rerun = true ∧
    (parse_args_rerun_merge { argsDefault with rerun := true } argsMultiQuery).granule_ids =
      argsMultiQuery.granule_ids ∧
    (parse_args_rerun_merge { argsDefault with rerun := true } argsMultiQuery).rerun = true ∧
    (parse_args_rerun_merge { argsDefault with rerun := true } argsMultiQuery).root_dir =
      ({ argsDefault with rerun := true } : Args).root_dir :=
  have h := claim_C10 { argsDefault with rerun := true } argsMultiQuery rfl
  ⟨rfl, h.2.2.2.2.2.2.2.2.2.2.1, h.2.2.2.2.2.1, h.1⟩

/-! ## Claim C3: the query-state round trip -/

theorem settings_roundtrip (a : Args) : settings_load (settings_dump a) = some a := by rfl

theorem decPairs_encPairs (l : List (String × String)) (rest : List PTok) :
    decPairs l.length (encPairs l ++ rest) = some (l, rest) := by
  induction l with
  | nil => rfl
  | cons hd tl ih =>
      obtain ⟨k, v⟩ := hd
      have h1 : decPairs ((k, v) :: tl).length (encPairs ((k, v) :: tl) ++ rest) =
          (decPairs tl.length (encPairs tl ++ rest)).map
            (fun r => ((k, v) :: r.1, r.2)) := rfl
      rw [h1, ih]
      rfl

theorem decItem_encItem (it : Item) (rest : List PTok) :
    decItem (encItem it ++ rest) = some (it, rest) := by
  obtain ⟨i, dt, assets⟩ := it
  have h1 : decItem (encItem ⟨i, dt, assets⟩ ++ rest) =
      (decPairs assets.length (encPairs assets ++ rest)).map
        (fun r => (⟨i, dt, r.1⟩, r.2)) := rfl
  rw [h1, decPairs_encPairs]
  rfl

theorem decEntries_encEntries (l : List (String × Item)) (rest : List PTok) :
    decEntries l.length (encEntries l ++ rest) = some (l, rest) := by
  induction l with
  | nil => rfl
  | cons hd tl ih =>
      obtain ⟨g, it⟩ := hd
      have h1 : decEntries ((g, it) :: tl).length (encEntries ((g, it) :: tl) ++ rest) =
          (decItem ((encItem it ++ encEntries tl) ++ rest)).bind (fun r =>
            (decEntries tl.length r.2).map (fun r2 => ((g, r.1) :: r2.1, r2.2))) := rfl
      rw [h1, List.append_assoc, decItem_encItem]
      show (decEntries tl.length (encEntries tl ++ rest)).map
          (fun r2 => ((g, it) :: r2.1, r2.2)) = some ((g, it) :: tl, rest)
      rw [ih]
      rfl

theorem pickle_roundtrip (ws : List (String × Item)) :
    pickle_load (pickle_dump ws) = some ws := by
  have h1 : pickle_load (pickle_dump ws) =
      (match decEntries ws.length (encEntries ws) with
       | some (l, []) => some l
       | _ => none) := rfl
  rw [h1, show encEntries ws = encEntries ws ++ [] from (List.append_nil _).symm,
    decEntries_encEntries]

/-- C3 (confirmed): loading the persisted query state after persisting
it returns exactly the parameters and the Working Set — every Candidate
Record attribute, including the nested asset URL map, is reproduced. -/
theorem claim_C3 (a : Args) (ws : List (String × Item)) (_hne : ws ≠ []) :
    loadQueryState (persistQueryState a ws) = some (a, ws) := by
  unfold loadQueryState persistQueryState
  simp only [settings_roundtrip, pickle_roundtrip]

/-- Witness for C3 at a concrete non-empty working set. -/
theorem claim_C3_witness :
    wsStoreExample ≠ [] ∧
    loadQueryState (persistQueryState argsDefault wsStoreExample) =
      some (argsDefault, wsStoreExample) :=
  ⟨by decide, claim_C3 argsDefault wsStoreExample (by decide)⟩

/-! ## Claim C4: per-record evaluation in the metadata filter stage -/

/-- C4 counterexample (the claim as stated is false): on a record whose
metadata names a Landsat-9 product id followed by cloud and spatial
coverage attributes, with the cloud ceiling active (50 < 100), the
sensor-exclusion predicate deletes the record and the `break` ends the
attribute loop — the cloud predicate, although active and present in the
same document, is never evaluated. -/
theorem claim_C4_counterexample :
    deletedBy (processAttrs paramsCloudActive gidL30 attrsLandsat9) =
      some FilterTag.landsat9 ∧
    MetaAttr.cloudCoverage 10 ∈ attrsLandsat9 ∧
    paramsCloudActive.cloud_cover_max < 100 ∧
    FilterTag.cloud ∉ evalTraceOf (processAttrs paramsCloudActive gidL30 attrsLandsat9) := by
  decide

theorem mapTag_extend (p : Params) (gid : String) (rest : List MetaAttr) (tag : FilterTag)
    (ih : ∀ (r : FilterTag) (evs : List FilterTag),
      processAttrs p gid rest = .ok (some r, evs) →
      ∀ extra, processAttrs p gid (rest ++ extra) = .ok (some r, evs))
    (r : FilterTag) (evs : List FilterTag) (extra : List MetaAttr)
    (h : (processAttrs p gid rest).map (fun q => (q.1, tag :: q.2)) = .ok (some r, evs)) :
    (processAttrs p gid (rest ++ extra)).map (fun q => (q.1, tag :: q.2)) =
      .ok (some r, evs) := by
  cases hrest : processAttrs p gid rest with
  | error e =>
      rw [hrest] at h
      simp [Except.map] at h
  | ok q =>
      obtain ⟨r0, evs0⟩ := q
      rw [hrest] at h
      simp only [Except.map, Except.ok.injEq, Prod.mk.injEq] at h
      obtain ⟨hr0, hevs⟩ := h
      subst hr0
      rw [ih r evs0 hrest extra]
      simp [Except.map, hevs]

/-- Once a predicate has deleted the record, the rest of the attribute
list is never examined: the scan's result is invariant under appending
further attributes. -/
theorem processAttrs_extend (p : Params) (gid : String) :
    ∀ (attrs : List MetaAttr) (r : FilterTag) (evs : List FilterTag),
      processAttrs p gid attrs = .ok (some r, evs) →
      ∀ extra, processAttrs p gid (attrs ++ extra) = .ok (some r, evs) := by
  intro attrs
  induction attrs with
  | nil =>
      intro r evs h extra
      simp [processAttrs] at h
  | cons a rest ih =>
      intro r evs h extra
      cases a with
      | landsatProductID prod_id =>
          simp only [processAttrs, List.cons_append] at h ⊢
          by_cases h1 : strContains gid ".L30." = true
          · rw [if_pos h1] at h ⊢
            by_cases h2 : strStarts prod_id "LC08" = true
            · rw [if_pos h2] at h ⊢
              exact mapTag_extend p gid rest _ ih r evs extra h
            · rw [if_neg h2] at h ⊢
              by_cases h3 : strStarts prod_id "LC09" = true
              · rw [if_pos h3] at h ⊢
                exact h
              · rw [if_neg h3] at h
                cases h
          · rw [if_neg h1] at h ⊢
            exact ih r evs h extra
      | cloudCoverage pct =>
          simp only [processAttrs, List.cons_append] at h ⊢
          by_cases h1 : p.cloud_cover_max < 100
          · rw [if_pos h1] at h ⊢
            by_cases h2 : pct > p.cloud_cover_max
            · rw [if_pos h2] at h ⊢
              exact h
            · rw [if_neg h2] at h ⊢
              exact mapTag_extend p gid rest _ ih r evs extra h
          · rw [if_neg h1] at h ⊢
            exact ih r evs h extra
      | spatialCoverage pct =>
          simp only [processAttrs, List.cons_append] at h ⊢
          by_cases h1 : p.spatial_coverage_min > 0
          · rw [if_pos h1] at h ⊢
            by_cases h2 : pct < p.spatial_coverage_min
            · rw [if_pos h2] at h ⊢
              exact h
            · rw [if_neg h2] at h ⊢
              exact mapTag_extend p gid rest _ ih r evs extra h
          · rw [if_neg h1] at h ⊢
            exact ih r evs h extra
      | otherAttr name =>
          simp only [processAttrs, List.cons_append] at h ⊢
          exact ih r evs h extra

/-- Each granule id is deleted at most once by the metadata loop: the
deletion trace is duplicate-free. -/
theorem filterQueryDictGo_dels (p : Params) (fetch : String → List MetaAttr) :
    ∀ (gids : List String) (ws : List (String × Item)) (dels : List String)
      (out : List (String × Item) × List String),
      gids.Nodup → dels.Nodup → (∀ g ∈ dels, g ∉ gids) →
      filterQueryDictGo p fetch gids ws dels = .ok out →
      out.2.Nodup := by
  intro gids
  induction gids with
  | nil =>
      intro ws dels out _ hdels _ h
      simp only [filterQueryDictGo, Except.ok.injEq] at h
      rw [← h]
      simpa using hdels
  | cons gid rest ih =>
      intro ws dels out hnd hdels hdisj h
      cases hlk : lookupA gid ws with
      | none =>
          have hstep : filterQueryDictGo p fetch (gid :: rest) ws dels =
              .error ("KeyError: " ++ gid) := by
            simp [filterQueryDictGo, hlk]
          rw [hstep] at h
          exact Except.noConfusion h
      | some it =>
          cases hpr : processAttrs p gid (fetch (metadataHref it)) with
          | error e =>
              have hstep : filterQueryDictGo p fetch (gid :: rest) ws dels = .error e := by
                simp [filterQueryDictGo, hlk, hpr]
              rw [hstep] at h
              exact Except.noConfusion h
          | ok q =>
              obtain ⟨d, evs⟩ := q
              simp only [List.nodup_cons] at hnd
              cases d with
              | some tag =>
                  have hstep : filterQueryDictGo p fetch (gid :: rest) ws dels =
                      filterQueryDictGo p fetch rest (dictErase gid ws) (gid :: dels) := by
                    simp [filterQueryDictGo, hlk, hpr]
                  rw [hstep] at h
                  refine ih (dictErase gid ws) (gid :: dels) out hnd.2 ?_ ?_ h
                  · refine List.nodup_cons.2 ⟨?_, hdels⟩
                    intro hc
                    exact hdisj gid hc (List.mem_cons_self _ _)
                  · intro g hg
                    rcases List.mem_cons.1 hg with hg | hg
                    · exact hg ▸ hnd.1
                    · intro hc
                      exact hdisj g hg (List.mem_cons_of_mem _ hc)
              | none =>
                  have hstep : filterQueryDictGo p fetch (gid :: rest) ws dels =
                      filterQueryDictGo p fetch rest ws dels := by
                    simp [filterQueryDictGo, hlk, hpr]
                  rw [hstep] at h
                  refine ih ws dels out hnd.2 hdels ?_ h
                  intro g hg hc
                  exact hdisj g hg (List.mem_cons_of_mem _ hc)

/-- C4 (corrected): in the metadata filter stage a deletion by one
predicate terminates the metadata scan for that record — the remaining
predicates are NOT evaluated (the source `break`s out of the attribute
loop) — and, as a consequence, no already-deleted granule id is ever
subjected to a second deletion attempt (the deletion trace of the stage
is duplicate-free). -/
theorem claim_C4 :
    (∀ (p : Params) (gid : String) (attrs : List MetaAttr) (r : FilterTag)
        (evs : List FilterTag),
        processAttrs p gid attrs = .ok (some r, evs) →
        ∀ extra, processAttrs p gid (attrs ++ extra) = .ok (some r, evs)) ∧
    (∀ (p : Params) (fetch : String → List MetaAttr)
        (ws ws2 : List (String × Item)) (dels : List String),
        NodupKeys ws →
        filter_query_dict_metadata p fetch ws = .ok (ws2, dels) →
        dels.Nodup) :=
  ⟨fun p gid => processAttrs_extend p gid,
   fun p fetch ws ws2 dels hnd h =>
     filterQueryDictGo_dels p fetch (dictKeys ws) ws [] (ws2, dels) hnd
       List.nodup_nil (by simp) h⟩

/-- Witness for C4: the Landsat-9 deletion at `attrsLandsat9` is stable
under appending further attributes, and the one-record metadata stage
deletes `gidL30` exactly once. -/
theorem claim_C4_witness :
    (processAttrs paramsCloudActive gidL30
        (attrsLandsat9 ++ [MetaAttr.cloudCoverage 100]) =
      .ok (some FilterTag.landsat9, [FilterTag.landsat9])) ∧
    ([gidL30] : List String).Nodup :=
  ⟨claim_C4.1 paramsCloudActive gidL30 attrsLandsat9 FilterTag.landsat9
      [FilterTag.landsat9] (by decide) [MetaAttr.cloudCoverage 100],
   claim_C4.2 paramsCloudActive (fun _ => attrsLandsat9)
      [(gidL30, itThreeL1)] [] [gidL30] (by decide) (by decide)⟩

/-! ## Claim C9: mutual exclusion of the query inputs -/

/-- C9 counterexample (the claim as stated is false): an argument set
with BOTH an explicit granule-id list and a bounding box passes
validation — `verify_input_args` never rejects over-specified query
inputs when granule ids are present. -/
theorem claim_C9_counterexample :
    argsMultiQuery.granule_ids ≠ "" ∧ argsMultiQuery.bounding_box ≠ "" ∧
    verify_input_args envAllPaths argsMultiQuery = .ok argsMultiQuery := by
  decide

/-- C9 (corrected): input validation enforces a precedence order rather
than mutual exclusion.  Under the job-setup, path, band and rerun
asserts (the hypotheses): when the granule-id list is set and well
formed, validation succeeds whatever the bounding box, polygon and
tile-id hold; when granule ids are absent, a date range is present and a
well-formed tile id is set, validation succeeds whatever the bounding
box and polygon hold (given the range/months/collections asserts); only
when granule ids and tile id are both absent must exactly one of
bounding box and polygon be set — none set is rejected, and both set is
rejected. -/
theorem claim_C9 (env : Env) (a : Args)
    (hroot : env.isdir a.root_dir = true)
    (hjob : a.job_name ≠ "")
    (hncpu : 0 < a.ncpu)
    (hclamp : ¬ env.cpu_count < a.ncpu)
    (hdem : env.pathExists a.dem_file = true)
    (hland : env.pathExists a.landcover_file = true)
    (hworld : env.pathExists a.worldcover_file = true)
    (hl30 : subsetOf (splitOnChar ',' a.l30_v2_bands) l30AllowedBands = true)
    (hs30 : subsetOf (splitOnChar ',' a.s30_v2_bands) s30AllowedBands = true)
    (hrerun : a.rerun = false) :
    (a.granule_ids ≠ "" →
      (splitOnChar ',' a.granule_ids).all matchHLSGranuleId = true →
      verify_input_args env a = .ok a) ∧
    (a.granule_ids = "" → a.date_range ≠ "" → a.tile_id ≠ "" →
      (matchMgrsTile a.tile_id || matchMgrsTileT a.tile_id) = true →
      verifyFilterRanges a = .ok a →
      verify_input_args env a = .ok a) ∧
    (a.granule_ids = "" → a.date_range ≠ "" → a.tile_id = "" → a.bounding_box = "" →
      a.intersects = "" →
      verify_input_args env a =
        .error "Either a bounding box, tile id, or intersects argument must be provided, but not more than one.") ∧
    (a.granule_ids = "" → a.date_range ≠ "" → a.tile_id = "" → a.bounding_box ≠ "" →
      a.intersects ≠ "" →
      verify_input_args env a =
        .error "Either a bounding box, tile id, or intersects argument must be provided, but not more than one.") := by
  have hcommon : verify_input_args env a = verifyQuerySelection env a := by
    simp [verify_input_args, hroot, hjob, hncpu, hclamp, hdem, hland, hworld,
      hl30, hs30, hrerun]
  refine ⟨?_, ?_, ?_, ?_⟩
  · intro hg hgall
    rw [hcommon]
    simp [verifyQuerySelection, hg, hgall]
  · intro hg hdr ht hpat hranges
    rw [hcommon]
    simp [verifyQuerySelection, hg, hdr, ht, hpat, hranges]
  · intro hg hdr ht hbb hint
    rw [hcommon]
    simp [verifyQuerySelection, hg, hdr, ht, hbb, hint]
  · intro hg hdr ht hbb hint
    rw [hcommon]
    simp [verifyQuerySelection, hg, hdr, ht, hbb, hint]

/-- Witness for C9: granule-id precedence accepts the over-specified
argument set, and the no-query argument set is rejected. -/
theorem claim_C9_witness :
    verify_input_args envAllPaths argsMultiQuery = .ok argsMultiQuery ∧
    verify_input_args envAllPaths argsNoQuery =
      .error "Either a bounding box, tile id, or intersects argument must be provided, but not more than one." :=
  ⟨(claim_C9 envAllPaths argsMultiQuery (by decide) (by decide) (by decide) (by decide)
      (by decide) (by decide) (by decide) (by decide) (by decide) (by decide)).1
      (by decide) (by decide),
   (claim_C9 envAllPaths argsNoQuery (by decide) (by decide) (by decide) (by decide)
      (by decide) (by decide) (by decide) (by decide) (by decide) (by decide)).2.2.1
      (by decide) (by decide) (by decide) (by decide) (by decide)⟩

/-! ## Claim C5: fail-fast on an empty working set -/

/-- C5 (confirmed): if any filter stage leaves the Working Set empty,
the whole job aborts: the outcome is the `sys.exit` of
`exit_if_no_downloads`, the run never reaches persistence or download,
and — in particular — the same-day post-filter of stage 4 never runs
when stage 3 empties the set. -/
theorem claim_C5 (p : Params) (items : List Item) (fetch : String → List MetaAttr)
    (dnd : Bool)
    (h : filter_item_collection_and_populate_dict p items = [] ∨
         wsAfterPre p items = [] ∨
         wsAfterMetadata p items fetch = .ok [] ∨
         wsAfterPost p items fetch = .ok []) :
    (runJob p items fetch dnd).2 = .abortedEmpty ∧
    Stage.persistResults ∉ (runJob p items fetch dnd).1 ∧
    Stage.downloadStage ∉ (runJob p items fetch dnd).1 ∧
    (wsAfterMetadata p items fetch = .ok [] →
      Stage.sameDayPost ∉ (runJob p items fetch dnd).1) := by
  by_cases h1 : (filter_item_collection_and_populate_dict p items).isEmpty = true
  · have hrj : runJob p items fetch dnd = ([.populate], .abortedEmpty) := by
      simp [runJob, runFilterPipeline, h1]
    rw [hrj]
    exact ⟨rfl, by decide, by decide, fun _ => by decide⟩
  · by_cases h2 : (wsAfterPre p items).isEmpty = true
    · cases hsd : p.same_day
      · have hrj : runJob p items fetch dnd = ([.populate], .abortedEmpty) := by
          simp [runJob, runFilterPipeline, h1, h2, hsd]
        rw [hrj]
        exact ⟨rfl, by decide, by decide, fun _ => by decide⟩
      · have hrj : runJob p items fetch dnd =
            ([.populate, .sameDayPre], .abortedEmpty) := by
          simp [runJob, runFilterPipeline, h1, h2, hsd]
        rw [hrj]
        exact ⟨rfl, by decide, by decide, fun _ => by decide⟩
    · have h1e : ¬ filter_item_collection_and_populate_dict p items = [] := by
        intro hc
        exact h1 (by rw [hc]; rfl)
      have h2e : ¬ wsAfterPre p items = [] := by
        intro hc
        exact h2 (by rw [hc]; rfl)
      rcases h with hc | hc | hc | hc
      · exact absurd hc h1e
      · exact absurd hc h2e
      · -- stage 3 empties the set
        cases hsd : p.same_day
        · have hrj : runJob p items fetch dnd =
              ([Stage.populate] ++ [Stage.metadataFilter], .abortedEmpty) := by
            simp [runJob, runFilterPipeline, h1, h2, hc, hsd]
          rw [hrj]
          exact ⟨rfl, by decide, by decide, fun _ => by decide⟩
        · have hrj : runJob p items fetch dnd =
              ([Stage.populate, Stage.sameDayPre] ++ [Stage.metadataFilter],
                .abortedEmpty) := by
            simp [runJob, runFilterPipeline, h1, h2, hc, hsd]
          rw [hrj]
          exact ⟨rfl, by decide, by decide, fun _ => by decide⟩
      · -- stage 4 empties the set
        cases hm : wsAfterMetadata p items fetch with
        | error e =>
            rw [wsAfterPost, hm] at hc
            exact Except.noConfusion hc
        | ok ws3 =>
            rw [wsAfterPost, hm] at hc
            have hc4 : (if p.same_day then filter_dict_for_S30_L30_sameDay ws3
                else ws3) = [] := Except.ok.inj hc
            cases hsd : p.same_day
            · rw [hsd] at hc4
              simp only [if_neg Bool.false_ne_true] at hc4
              have hm2 : wsAfterMetadata p items fetch = .ok [] := by rw [hm, hc4]
              have hrj : runJob p items fetch dnd =
                  ([Stage.populate] ++ [Stage.metadataFilter], .abortedEmpty) := by
                simp [runJob, runFilterPipeline, h1, h2, hm2, hsd]
              rw [hrj]
              exact ⟨rfl, by decide, by decide, fun _ => by decide⟩
            · rw [hsd] at hc4
              have hpair : filter_dict_for_S30_L30_sameDay ws3 = [] := by
                simpa using hc4
              by_cases hws3 : ws3.isEmpty = true
              · have hws3e : ws3 = [] := by
                  cases ws3 with
                  | nil => rfl
                  | cons a t => simp [List.isEmpty] at hws3
                have hm2 : wsAfterMetadata p items fetch = .ok [] := by rw [hm, hws3e]
                have hrj : runJob p items fetch dnd =
                    ([Stage.populate, Stage.sameDayPre] ++ [Stage.metadataFilter],
                      .abortedEmpty) := by
                  simp [runJob, runFilterPipeline, h1, h2, hm2, hsd]
                rw [hrj]
                exact ⟨rfl, by decide, by decide, fun _ => by decide⟩
              · have hrj : runJob p items fetch dnd =
                    ([Stage.populate, Stage.sameDayPre] ++
                      [Stage.metadataFilter, Stage.sameDayPost], .abortedEmpty) := by
                  simp [runJob, runFilterPipeline, h1, h2, hm, hsd, hws3, hpair]
                rw [hrj]
                refine ⟨rfl, by decide, by decide, fun hmm => ?_⟩
                exfalso
                have hws3e : ws3 = [] := Except.ok.inj hmm
                rw [hws3e] at hws3
                exact hws3 rfl

/-- Witness for C5: one granule whose 50 % cloud coverage exceeds the
0 % ceiling empties the set in stage 3; the job aborts and neither the
same-day post-filter nor persistence nor download is entered. -/
theorem claim_C5_witness :
    wsAfterMetadata paramsCloudZero [itThreeS1] fetchCloud50 = .ok [] ∧
    (runJob paramsCloudZero [itThreeS1] fetchCloud50 false).2 = .abortedEmpty ∧
    Stage.persistResults ∉ (runJob paramsCloudZero [itThreeS1] fetchCloud50 false).1 ∧
    Stage.downloadStage ∉ (runJob paramsCloudZero [itThreeS1] fetchCloud50 false).1 ∧
    Stage.sameDayPost ∉ (runJob paramsCloudZero [itThreeS1] fetchCloud50 false).1 := by
  have h3 : wsAfterMetadata paramsCloudZero [itThreeS1] fetchCloud50 = .ok [] := by
    decide
  have main := claim_C5 paramsCloudZero [itThreeS1] fetchCloud50 false
    (Or.inr (Or.inr (Or.inl h3)))
  exact ⟨h3, main.1, main.2.1, main.2.2.1, main.2.2.2 h3⟩


/-! ## Claim C1: the completed-pipeline invariant — helper lemmas -/

theorem lookupA_of_mem {α : Type} {d : List (String × α)} (hnd : NodupKeys d) {k : String}
    {v : α} (h : (k, v) ∈ d) : lookupA k d = some v := by
  induction d with
  | nil => cases h
  | cons hd tl ih =>
      obtain ⟨k0, v0⟩ := hd
      unfold NodupKeys dictKeys at hnd
      simp only [List.map_cons, List.nodup_cons] at hnd
      rcases List.mem_cons.1 h with he | ht
      · have hk : k0 = k := (congrArg Prod.fst he).symm
        have hv : v0 = v := (congrArg Prod.snd he).symm
        simp [lookupA, hk, hv]
      · have hne : k0 ≠ k := by
          intro he2
          exact hnd.1 (he2 ▸ mem_keys_of_mem ht)
        simp only [lookupA, if_neg hne]
        exact ih hnd.2 ht

theorem foldl_populate_nodup (p : Params) :
    ∀ (items : List Item) (acc : List (String × Item)),
      NodupKeys acc → NodupKeys (items.foldl (populateStep p) acc) := by
  intro items
  induction items with
  | nil => intro acc h; exact h
  | cons i rest ih =>
      intro acc h
      refine ih (populateStep p acc i) ?_
      unfold populateStep
      split
      · exact h
      · split
        · exact h
        · exact nodupKeys_dictInsert _ _ h

theorem populate_nodupKeys (p : Params) (items : List Item) :
    NodupKeys (filter_item_collection_and_populate_dict p items) :=
  foldl_populate_nodup p items [] (by simp [NodupKeys, dictKeys])

theorem pairFilter_nodupKeys {d : List (String × Item)} (h : NodupKeys d) :
    NodupKeys (filter_dict_for_S30_L30_sameDay d) :=
  nodupKeys_filter _ h

theorem wsAfterPre_nodupKeys (p : Params) (items : List Item) :
    NodupKeys (wsAfterPre p items) := by
  unfold wsAfterPre
  split
  · exact pairFilter_nodupKeys (populate_nodupKeys p items)
  · exact populate_nodupKeys p items

theorem foldl_populate_mem (p : Params) :
    ∀ (items : List Item) (acc : List (String × Item)),
      (∀ g it, (g, it) ∈ acc → g = it.id ∧
        (p.tile_id ≠ "" → strContains it.id p.tile_id = true) ∧
        (p.months.length < 12 → monthOf it.datetime ∈ p.months)) →
      ∀ g it, (g, it) ∈ items.foldl (populateStep p) acc →
        g = it.id ∧ (p.tile_id ≠ "" → strContains it.id p.tile_id = true) ∧
        (p.months.length < 12 → monthOf it.datetime ∈ p.months) := by
  intro items
  induction items with
  | nil => intro acc hacc g it h; exact hacc g it h
  | cons i rest ih =>
      intro acc hacc g it h
      refine ih (populateStep p acc i) ?_ g it h
      intro g2 it2 h2
      unfold populateStep at h2
      by_cases hA : p.tile_id ≠ "" ∧ ¬ (strContains i.id p.tile_id = true)
      · rw [if_pos hA] at h2
        exact hacc g2 it2 h2
      · rw [if_neg hA] at h2
        by_cases hB : p.months.length < 12 ∧ monthOf i.datetime ∉ p.months
        · rw [if_pos hB] at h2
          exact hacc g2 it2 h2
        · rw [if_neg hB] at h2
          rcases mem_dictInsert h2 with ⟨hg, hit⟩ | h3
          · subst hit
            refine ⟨hg, fun ht => ?_, fun hmo => ?_⟩
            · by_contra hc
              exact hA ⟨ht, hc⟩
            · by_contra hc
              exact hB ⟨hmo, hc⟩
          · exact hacc g2 it2 h3

/-- Every record of the populated Working Set is keyed by its own id and
passes the tile-id and month predicates. -/
theorem populate_mem (p : Params) (items : List Item) (g : String) (it : Item)
    (h : (g, it) ∈ filter_item_collection_and_populate_dict p items) :
    g = it.id ∧ (p.tile_id ≠ "" → strContains it.id p.tile_id = true) ∧
    (p.months.length < 12 → monthOf it.datetime ∈ p.months) :=
  foldl_populate_mem p items [] (fun _ _ hc => absurd hc (List.not_mem_nil _)) g it h

/-- The pairing filter only deletes records. -/
theorem pairFilter_subset {d : List (String × Item)} {q : String × Item}
    (h : q ∈ filter_dict_for_S30_L30_sameDay d) : q ∈ d :=
  List.mem_of_mem_filter h

theorem wsAfterPre_mem (p : Params) (items : List Item) {q : String × Item}
    (h : q ∈ wsAfterPre p items) :
    q ∈ filter_item_collection_and_populate_dict p items := by
  unfold wsAfterPre at h
  by_cases hsd : p.same_day = true
  · rw [if_pos hsd] at h
    exact pairFilter_subset h
  · rw [if_neg hsd] at h
    exact h

theorem mapTag_none_inv (x : Except String (Option FilterTag × List FilterTag))
    (tag : FilterTag) (evs : List FilterTag)
    (h : x.map (fun q => (q.1, tag :: q.2)) = .ok (none, evs)) :
    ∃ evs0, x = .ok (none, evs0) ∧ evs = tag :: evs0 := by
  cases x with
  | error e => simp [Except.map] at h
  | ok q =>
      obtain ⟨r0, evs0⟩ := q
      simp only [Except.map, Except.ok.injEq, Prod.mk.injEq] at h
      obtain ⟨h1, h2⟩ := h
      cases r0 with
      | some r => cases h1
      | none => exact ⟨evs0, rfl, h2.symm⟩

/-- A record that the metadata scan keeps satisfies every active
metadata predicate at every attribute of its document. -/
theorem processAttrs_ok_none (p : Params) (gid : String) :
    ∀ (attrs : List MetaAttr) (evs : List FilterTag),
      processAttrs p gid attrs = .ok (none, evs) →
      ∀ a ∈ attrs,
        (∀ prod_id, a = .landsatProductID prod_id →
          strContains gid ".L30." = true → strStarts prod_id "LC08" = true) ∧
        (∀ pct, a = .cloudCoverage pct → p.cloud_cover_max < 100 →
          pct ≤ p.cloud_cover_max) ∧
        (∀ pct, a = .spatialCoverage pct → 0 < p.spatial_coverage_min →
          p.spatial_coverage_min ≤ pct) := by
  intro attrs
  induction attrs with
  | nil =>
      intro evs _ a ha
      cases ha
  | cons a0 rest ih =>
      intro evs h a ha
      have hstep : ∀ evs2, processAttrs p gid rest = .ok (none, evs2) →
          a ∈ rest →
          (∀ prod_id, a = .landsatProductID prod_id →
            strContains gid ".L30." = true → strStarts prod_id "LC08" = true) ∧
          (∀ pct, a = .cloudCoverage pct → p.cloud_cover_max < 100 →
            pct ≤ p.cloud_cover_max) ∧
          (∀ pct, a = .spatialCoverage pct → 0 < p.spatial_coverage_min →
            p.spatial_coverage_min ≤ pct) := fun evs2 h2 ha2 => ih evs2 h2 a ha2
      rcases List.mem_cons.1 ha with he | ht
      all_goals cases a0 with
      | landsatProductID prod_id =>
          first
          | (subst he
             simp only [processAttrs] at h
             by_cases h1 : strContains gid ".L30." = true
             · rw [if_pos h1] at h
               by_cases h2 : strStarts prod_id "LC08" = true
               · refine ⟨fun pid hpid _ => ?_, fun pct hpct => ?_, fun pct hpct => ?_⟩
                 · cases hpid
                   exact h2
                 · cases hpct
                 · cases hpct
               · rw [if_neg h2] at h
                 by_cases h3 : strStarts prod_id "LC09" = true
                 · rw [if_pos h3] at h
                   simp at h
                 · rw [if_neg h3] at h
                   cases h
             · refine ⟨fun pid hpid hcon => absurd hcon h1, fun pct hpct => ?_,
                 fun pct hpct => ?_⟩
               · cases hpct
               · cases hpct)
          | (refine ?_
             simp only [processAttrs] at h
             by_cases h1 : strContains gid ".L30." = true
             · rw [if_pos h1] at h
               by_cases h2 : strStarts prod_id "LC08" = true
               · rw [if_pos h2] at h
                 obtain ⟨evs0, hrest, _⟩ := mapTag_none_inv _ _ _ h
                 exact hstep evs0 hrest ht
               · rw [if_neg h2] at h
                 by_cases h3 : strStarts prod_id "LC09" = true
                 · rw [if_pos h3] at h
                   simp at h
                 · rw [if_neg h3] at h
                   cases h
             · rw [if_neg h1] at h
               exact hstep evs h ht)
      | cloudCoverage pct0 =>
          first
          | (subst he
             simp only [processAttrs] at h
             by_cases h1 : p.cloud_cover_max < 100
             · rw [if_pos h1] at h
               by_cases h2 : pct0 > p.cloud_cover_max
               · rw [if_pos h2] at h
                 simp at h
               · refine ⟨fun pid hpid => ?_, fun pct hpct _ => ?_, fun pct hpct => ?_⟩
                 · cases hpid
                 · cases hpct
                   omega
                 · cases hpct
             · refine ⟨fun pid hpid => ?_, fun pct hpct hact => ?_, fun pct hpct => ?_⟩
               · cases hpid
               · cases hpct
                 exact absurd hact h1
               · cases hpct)
          | (refine ?_
             simp only [processAttrs] at h
             by_cases h1 : p.cloud_cover_max < 100
             · rw [if_pos h1] at h
               by_cases h2 : pct0 > p.cloud_cover_max
               · rw [if_pos h2] at h
                 simp at h
               · rw [if_neg h2] at h
                 obtain ⟨evs0, hrest, _⟩ := mapTag_none_inv _ _ _ h
                 exact hstep evs0 hrest ht
             · rw [if_neg h1] at h
               exact hstep evs h ht)
      | spatialCoverage pct0 =>
          first
          | (subst he
             simp only [processAttrs] at h
             by_cases h1 : 0 < p.spatial_coverage_min
             · rw [if_pos h1] at h
               by_cases h2 : pct0 < p.spatial_coverage_min
               · rw [if_pos h2] at h
                 simp at h
               · refine ⟨fun pid hpid => ?_, fun pct hpct => ?_, fun pct hpct _ => ?_⟩
                 · cases hpid
                 · cases hpct
                 · cases hpct
                   omega
             · refine ⟨fun pid hpid => ?_, fun pct hpct => ?_, fun pct hpct hact => ?_⟩
               · cases hpid
               · cases hpct
               · cases hpct
                 exact absurd hact h1)
          | (refine ?_
             simp only [processAttrs] at h
             by_cases h1 : 0 < p.spatial_coverage_min
             · rw [if_pos h1] at h
               by_cases h2 : pct0 < p.spatial_coverage_min
               · rw [if_pos h2] at h
                 simp at h
               · rw [if_neg h2] at h
                 obtain ⟨evs0, hrest, _⟩ := mapTag_none_inv _ _ _ h
                 exact hstep evs0 hrest ht
             · rw [if_neg h1] at h
               exact hstep evs h ht)
      | otherAttr name =>
          first
          | (subst he
             refine ⟨fun pid hpid => ?_, fun pct hpct => ?_, fun pct hpct => ?_⟩
             · cases hpid
             · cases hpct
             · cases hpct)
          | (simp only [processAttrs] at h
             exact hstep evs h ht)

theorem filterQueryDictGo_mem (p : Params) (fetch : String → List MetaAttr) :
    ∀ (gids : List String) (ws : List (String × Item)) (dels : List String)
      (out : List (String × Item) × List String),
      NodupKeys ws →
      filterQueryDictGo p fetch gids ws dels = .ok out →
      ∀ g it, (g, it) ∈ out.1 →
        (g, it) ∈ ws ∧
        (g ∈ gids → ∃ evs, processAttrs p g (fetch (metadataHref it)) = .ok (none, evs)) := by
  intro gids
  induction gids with
  | nil =>
      intro ws dels out _ h g it hm
      simp only [filterQueryDictGo, Except.ok.injEq] at h
      rw [← h] at hm
      exact ⟨hm, fun hc => absurd hc (List.not_mem_nil _)⟩
  | cons gid rest ih =>
      intro ws dels out hnd h g it hm
      cases hlk : lookupA gid ws with
      | none =>
          have hstep : filterQueryDictGo p fetch (gid :: rest) ws dels =
              .error ("KeyError: " ++ gid) := by
            simp [filterQueryDictGo, hlk]
          rw [hstep] at h
          exact Except.noConfusion h
      | some it0 =>
          cases hpr : processAttrs p gid (fetch (metadataHref it0)) with
          | error e =>
              have hstep : filterQueryDictGo p fetch (gid :: rest) ws dels = .error e := by
                simp [filterQueryDictGo, hlk, hpr]
              rw [hstep] at h
              exact Except.noConfusion h
          | ok q =>
              obtain ⟨d, evs⟩ := q
              cases d with
              | some tag =>
                  have hstep : filterQueryDictGo p fetch (gid :: rest) ws dels =
                      filterQueryDictGo p fetch rest (dictErase gid ws) (gid :: dels) := by
                    simp [filterQueryDictGo, hlk, hpr]
                  rw [hstep] at h
                  have hres := ih (dictErase gid ws) (gid :: dels) out
                    (nodupKeys_dictErase _ hnd) h g it hm
                  have hgne : g ≠ gid := by
                    have := List.of_mem_filter hres.1
                    simpa using this
                  refine ⟨mem_of_mem_dictErase hres.1, fun hgm => ?_⟩
                  rcases List.mem_cons.1 hgm with he | ht
                  · exact absurd he hgne
                  · exact hres.2 ht
              | none =>
                  have hstep : filterQueryDictGo p fetch (gid :: rest) ws dels =
                      filterQueryDictGo p fetch rest ws dels := by
                    simp [filterQueryDictGo, hlk, hpr]
                  rw [hstep] at h
                  have hres := ih ws dels out hnd h g it hm
                  refine ⟨hres.1, fun hgm => ?_⟩
                  rcases List.mem_cons.1 hgm with he | ht
                  · subst he
                    have hit : it = it0 := by
                      have h9 := lookupA_of_mem hnd hres.1
                      rw [hlk] at h9
                      exact Option.some.inj h9.symm
                    rw [hit]
                    exact ⟨evs, hpr⟩
                  · exact hres.2 ht

theorem filterQueryDictGo_nodup (p : Params) (fetch : String → List MetaAttr) :
    ∀ (gids : List String) (ws : List (String × Item)) (dels : List String)
      (out : List (String × Item) × List String),
      NodupKeys ws →
      filterQueryDictGo p fetch gids ws dels = .ok out →
      NodupKeys out.1 := by
  intro gids
  induction gids with
  | nil =>
      intro ws dels out hnd h
      simp only [filterQueryDictGo, Except.ok.injEq] at h
      rw [← h]
      exact hnd
  | cons gid rest ih =>
      intro ws dels out hnd h
      cases hlk : lookupA gid ws with
      | none =>
          have hstep : filterQueryDictGo p fetch (gid :: rest) ws dels =
              .error ("KeyError: " ++ gid) := by
            simp [filterQueryDictGo, hlk]
          rw [hstep] at h
          exact Except.noConfusion h
      | some it0 =>
          cases hpr : processAttrs p gid (fetch (metadataHref it0)) with
          | error e =>
              have hstep : filterQueryDictGo p fetch (gid :: rest) ws dels = .error e := by
                simp [filterQueryDictGo, hlk, hpr]
              rw [hstep] at h
              exact Except.noConfusion h
          | ok q =>
              obtain ⟨d, evs⟩ := q
              cases d with
              | some tag =>
                  have hstep : filterQueryDictGo p fetch (gid :: rest) ws dels =
                      filterQueryDictGo p fetch rest (dictErase gid ws) (gid :: dels) := by
                    simp [filterQueryDictGo, hlk, hpr]
                  rw [hstep] at h
                  exact ih _ _ _ (nodupKeys_dictErase _ hnd) h
              | none =>
                  have hstep : filterQueryDictGo p fetch (gid :: rest) ws dels =
                      filterQueryDictGo p fetch rest ws dels := by
                    simp [filterQueryDictGo, hlk, hpr]
                  rw [hstep] at h
                  exact ih _ _ _ hnd h

theorem wsAfterMetadata_mem (p : Params) (items : List Item)
    (fetch : String → List MetaAttr) (ws3 : List (String × Item))
    (hm : wsAfterMetadata p items fetch = .ok ws3) (g : String) (it : Item)
    (hmem : (g, it) ∈ ws3) :
    (g, it) ∈ wsAfterPre p items ∧
    (∃ evs, processAttrs p g (fetch (metadataHref it)) = .ok (none, evs)) := by
  unfold wsAfterMetadata at hm
  cases hq : filter_query_dict_metadata p fetch (wsAfterPre p items) with
  | error e =>
      rw [hq] at hm
      exact Except.noConfusion hm
  | ok out =>
      rw [hq] at hm
      have hws3 : out.1 = ws3 := Except.ok.inj hm
      have hres := filterQueryDictGo_mem p fetch (dictKeys (wsAfterPre p items))
        (wsAfterPre p items) [] out (wsAfterPre_nodupKeys p items) hq g it
        (hws3 ▸ hmem)
      exact ⟨hres.1, hres.2 (mem_keys_of_mem hres.1)⟩

theorem wsAfterMetadata_nodup (p : Params) (items : List Item)
    (fetch : String → List MetaAttr) (ws3 : List (String × Item))
    (hm : wsAfterMetadata p items fetch = .ok ws3) : NodupKeys ws3 := by
  unfold wsAfterMetadata at hm
  cases hq : filter_query_dict_metadata p fetch (wsAfterPre p items) with
  | error e =>
      rw [hq] at hm
      exact Except.noConfusion hm
  | ok out =>
      rw [hq] at hm
      have hws3 : out.1 = ws3 := Except.ok.inj hm
      rw [← hws3]
      exact filterQueryDictGo_nodup p fetch _ _ _ out (wsAfterPre_nodupKeys p items) hq

theorem nodup_countP_two_partner (l : List String) (hnd : l.Nodup) (g : String)
    (_hg : g ∈ l)
    (hc : 2 ≤ l.countP (fun x => decide (date_tileID x = date_tileID g))) :
    ∃ g2, g2 ∈ l ∧ g2 ≠ g ∧ date_tileID g2 = date_tileID g := by
  rw [List.countP_eq_length_filter] at hc
  cases hfe : l.filter (fun x => decide (date_tileID x = date_tileID g)) with
  | nil =>
      rw [hfe] at hc
      simp at hc
  | cons x t =>
      cases t with
      | nil =>
          rw [hfe] at hc
          simp at hc
      | cons y t2 =>
          have hxm : x ∈ l.filter (fun x => decide (date_tileID x = date_tileID g)) := by
            rw [hfe]
            exact List.mem_cons_self _ _
          have hym : y ∈ l.filter (fun x => decide (date_tileID x = date_tileID g)) := by
            rw [hfe]
            exact List.mem_cons_of_mem _ (List.mem_cons_self _ _)
          have hndf := hnd.filter (fun x => decide (date_tileID x = date_tileID g))
          rw [hfe] at hndf
          simp only [List.nodup_cons, List.mem_cons] at hndf
          have hxy : x ≠ y := fun he => hndf.1 (Or.inl he)
          by_cases hxg : x = g
          · refine ⟨y, List.mem_of_mem_filter hym, ?_, by simpa using List.of_mem_filter hym⟩
            intro he
            exact hxy (hxg.trans he.symm)
          · exact ⟨x, List.mem_of_mem_filter hxm, hxg,
              by simpa using List.of_mem_filter hxm⟩

/-- Every record retained by the pairing filter has a distinct partner
with the same `(date, tile)` key in the result. -/
theorem pairFilter_partner (ws3 : List (String × Item)) (hnd : NodupKeys ws3)
    (g : String) (it : Item)
    (hmem : (g, it) ∈ filter_dict_for_S30_L30_sameDay ws3) :
    ∃ g2 it2, (g2, it2) ∈ filter_dict_for_S30_L30_sameDay ws3 ∧ g2 ≠ g ∧
      date_tileID g2 = date_tileID g := by
  have heven := countKey_pairFilter_even ws3 hnd (date_tileID g)
  have hnd2 : NodupKeys (filter_dict_for_S30_L30_sameDay ws3) :=
    pairFilter_nodupKeys hnd
  have hgk : g ∈ dictKeys (filter_dict_for_S30_L30_sameDay ws3) :=
    mem_keys_of_mem hmem
  have h1 : 0 < countKey (date_tileID g) (dictKeys (filter_dict_for_S30_L30_sameDay ws3)) :=
    List.countP_pos_iff.2 ⟨g, hgk, by simp⟩
  have h2 : 2 ≤ (dictKeys (filter_dict_for_S30_L30_sameDay ws3)).countP
      (fun x => decide (date_tileID x = date_tileID g)) := by
    unfold countKey at heven h1
    omega
  obtain ⟨g2, hg2l, hg2ne, hg2k⟩ := nodup_countP_two_partner _ hnd2 g hgk h2
  obtain ⟨it2, hit2⟩ := mem_dictKeys.1 hg2l
  exact ⟨g2, it2, hit2, hg2ne, hg2k⟩

/-- C1 (confirmed): when the filter pipeline completes without aborting,
the final Working Set is non-empty and every retained record satisfies
every active filter predicate simultaneously: tile-id substring match,
month-of-acquisition membership, same-day pairing (a distinct partner
with the same `(date, tile)` key is also retained), Landsat-9 sensor
exclusion, the cloud-cover ceiling (when below 100) and the
spatial-coverage floor (when above 0), the last three relative to the
record's fetched metadata document. -/
theorem claim_C1 (p : Params) (items : List Item) (fetch : String → List MetaAttr)
    (ws : List (String × Item))
    (h : (runFilterPipeline p items fetch).2 = .completed ws) :
    ws ≠ [] ∧ ∀ g it, (g, it) ∈ ws →
      (p.tile_id ≠ "" → strContains it.id p.tile_id = true) ∧
      (p.months.length < 12 → monthOf it.datetime ∈ p.months) ∧
      (p.same_day = true → ∃ g2 it2, (g2, it2) ∈ ws ∧ g2 ≠ g ∧
        date_tileID g2 = date_tileID g) ∧
      (∀ prod_id, MetaAttr.landsatProductID prod_id ∈ fetch (metadataHref it) →
        strContains g ".L30." = true → strStarts prod_id "LC08" = true) ∧
      (∀ pct, MetaAttr.cloudCoverage pct ∈ fetch (metadataHref it) →
        p.cloud_cover_max < 100 → pct ≤ p.cloud_cover_max) ∧
      (∀ pct, MetaAttr.spatialCoverage pct ∈ fetch (metadataHref it) →
        0 < p.spatial_coverage_min → p.spatial_coverage_min ≤ pct) := by
  by_cases h1 : (filter_item_collection_and_populate_dict p items).isEmpty = true
  · exfalso
    have h0 : (runFilterPipeline p items fetch).2 = .abortedEmpty := by
      simp [runFilterPipeline, h1]
    rw [h] at h0
    exact Outcome.noConfusion h0
  · by_cases h2 : (wsAfterPre p items).isEmpty = true
    · exfalso
      have h0 : (runFilterPipeline p items fetch).2 = .abortedEmpty := by
        simp [runFilterPipeline, h1, h2]
      rw [h] at h0
      exact Outcome.noConfusion h0
    · cases hm : wsAfterMetadata p items fetch with
      | error e =>
          exfalso
          have h0 : (runFilterPipeline p items fetch).2 = .fatalError e := by
            simp [runFilterPipeline, h1, h2, hm]
          rw [h] at h0
          exact Outcome.noConfusion h0
      | ok ws3 =>
          by_cases h3 : ws3.isEmpty = true
          · exfalso
            have h0 : (runFilterPipeline p items fetch).2 = .abortedEmpty := by
              simp [runFilterPipeline, h1, h2, hm, h3]
            rw [h] at h0
            exact Outcome.noConfusion h0
          · have hnd3 := wsAfterMetadata_nodup p items fetch ws3 hm
            have hrec : ∀ g it, (g, it) ∈ ws3 →
                (p.tile_id ≠ "" → strContains it.id p.tile_id = true) ∧
                (p.months.length < 12 → monthOf it.datetime ∈ p.months) ∧
                (∀ prod_id, MetaAttr.landsatProductID prod_id ∈ fetch (metadataHref it) →
                  strContains g ".L30." = true → strStarts prod_id "LC08" = true) ∧
                (∀ pct, MetaAttr.cloudCoverage pct ∈ fetch (metadataHref it) →
                  p.cloud_cover_max < 100 → pct ≤ p.cloud_cover_max) ∧
                (∀ pct, MetaAttr.spatialCoverage pct ∈ fetch (metadataHref it) →
                  0 < p.spatial_coverage_min → p.spatial_coverage_min ≤ pct) := by
              intro g it hmem
              have hpre := wsAfterMetadata_mem p items fetch ws3 hm g it hmem
              have hpop := wsAfterPre_mem p items hpre.1
              have hpm := populate_mem p items g it hpop
              obtain ⟨evs, hok⟩ := hpre.2
              have hattrs := processAttrs_ok_none p g _ evs hok
              refine ⟨hpm.2.1, hpm.2.2, fun prod_id hin hcon => ?_,
                fun pct hin hact => ?_, fun pct hin hact => ?_⟩
              · exact (hattrs _ hin).1 prod_id rfl hcon
              · exact (hattrs _ hin).2.1 pct rfl hact
              · exact (hattrs _ hin).2.2 pct rfl hact
            cases hsd : p.same_day
            · have h0 : (runFilterPipeline p items fetch).2 = .completed ws3 := by
                simp [runFilterPipeline, h1, h2, hm, h3, hsd]
              rw [h] at h0
              have hws : ws = ws3 := Outcome.completed.inj h0
              subst hws
              refine ⟨fun hc => h3 (by rw [hc]; rfl), fun g it hmem => ?_⟩
              have hr := hrec g it hmem
              refine ⟨hr.1, hr.2.1, fun hsame => ?_, hr.2.2.1, hr.2.2.2.1, hr.2.2.2.2⟩
              exact Bool.noConfusion hsame
            · by_cases h4 : (filter_dict_for_S30_L30_sameDay ws3).isEmpty = true
              · exfalso
                have h0 : (runFilterPipeline p items fetch).2 = .abortedEmpty := by
                  simp [runFilterPipeline, h1, h2, hm, h3, hsd, h4]
                rw [h] at h0
                exact Outcome.noConfusion h0
              · have h0 : (runFilterPipeline p items fetch).2 =
                    .completed (filter_dict_for_S30_L30_sameDay ws3) := by
                  simp [runFilterPipeline, h1, h2, hm, h3, hsd, h4]
                rw [h] at h0
                have hws : ws = filter_dict_for_S30_L30_sameDay ws3 :=
                  Outcome.completed.inj h0
                subst hws
                refine ⟨fun hc => h4 (by rw [hc]; rfl), fun g it hmem => ?_⟩
                have hr := hrec g it (pairFilter_subset hmem)
                refine ⟨hr.1, hr.2.1, fun _ => ?_, hr.2.2.1, hr.2.2.2.1, hr.2.2.2.2⟩
                exact pairFilter_partner ws3 hnd3 g it hmem

/-- Witness for C1 at a one-granule run with no active optional filter:
the pipeline completes and the conclusions hold at the concrete set. -/
theorem claim_C1_witness :
    (runFilterPipeline paramsOpen [itThreeS1] fetchNone).2 =
      Outcome.completed [(itThreeS1.id, itThreeS1)] ∧
    ([(itThreeS1.id, itThreeS1)] : List (String × Item)) ≠ [] :=
  have h : (runFilterPipeline paramsOpen [itThreeS1] fetchNone).2 =
      Outcome.completed [(itThreeS1.id, itThreeS1)] := by decide
  ⟨h, (claim_C1 paramsOpen [itThreeS1] fetchNone _ h).1⟩

end Proteus
